import Mathlib

/-!
Verification of the schema-validation engine of the `custom-models-action`
repository.

The repository ships two Python files: `src/common/exceptions.py` (the
exception taxonomy) and `tests/unit/test_schema_validator.py` (the unit tests
of the `ModelSchema` validator).  The exception taxonomy is embedded here
directly from its source.  The validator itself (`schema_validator.py`) is not
part of the corpus, so its operations are modelled from the specification,
with their observable behavior pinned by the unit tests.

Python strings are embedded as Lean `String`, Python values (scalars, lists,
dicts) as the inductive `PyVal`, and Python dicts as ordered association
lists `List (String × PyVal)` with first-match lookup, in-place update and
key deletion mirroring Python dict semantics.
-/

/-- A Python value as it appears in a parsed metadata document: `None`,
booleans, integers, strings, lists and string-keyed dictionaries. -/
inductive PyVal where
  | none
  | bool (b : Bool)
  | int (n : Int)
  | str (s : String)
  | list (xs : List PyVal)
  | dict (entries : List (String × PyVal))

/-- An ordered Python dictionary with string keys. -/
abbrev Dict := List (String × PyVal)

/-- `d[k]` lookup: the value of the first entry whose key is `k`. -/
def lookup : Dict → String → Option PyVal
  | [], _ => Option.none
  | (k, v) :: rest, key => if k = key then some v else lookup rest key

/-- `d[k] = v` assignment: replaces the value in place when the key exists,
appends the pair otherwise (Python dict insertion order). -/
def setKey : Dict → String → PyVal → Dict
  | [], key, v => [(key, v)]
  | (k, w) :: rest, key, v =>
    if k = key then (key, v) :: rest else (k, w) :: setKey rest key v

/-- `d.pop(k)` / `del d[k]`: removes the binding of `k`. -/
def removeKey : Dict → String → Dict
  | [], _ => []
  | (k, v) :: rest, key =>
    if k = key then removeKey rest key else (k, v) :: removeKey rest key

theorem lookup_setKey_self (d : Dict) (k : String) (v : PyVal) :
    lookup (setKey d k v) k = some v := by
  induction d with
  | nil => simp [setKey, lookup]
  | cons kv rest ih =>
    obtain ⟨k0, w⟩ := kv
    by_cases h : k0 = k
    · simp [setKey, h, lookup]
    · simp [setKey, h, lookup, ih]

theorem lookup_setKey_ne (d : Dict) (k k' : String) (v : PyVal) (hne : k' ≠ k) :
    lookup (setKey d k v) k' = lookup d k' := by
  have hne' : ¬ k = k' := fun h => hne h.symm
  induction d with
  | nil => simp [setKey, lookup, hne']
  | cons kv rest ih =>
    obtain ⟨k0, w⟩ := kv
    by_cases h : k0 = k
    · subst h
      simp [setKey, lookup, hne']
    · simp [setKey, h, lookup, ih]

theorem lookup_removeKey_self (d : Dict) (k : String) :
    lookup (removeKey d k) k = Option.none := by
  induction d with
  | nil => simp [removeKey, lookup]
  | cons kv rest ih =>
    obtain ⟨k0, w⟩ := kv
    by_cases h : k0 = k
    · simp [removeKey, h, ih]
    · simp [removeKey, h, lookup, ih]

theorem lookup_removeKey_ne (d : Dict) (k k' : String) (hne : k' ≠ k) :
    lookup (removeKey d k) k' = lookup d k' := by
  have hne' : ¬ k = k' := fun h => hne h.symm
  induction d with
  | nil => simp [removeKey]
  | cons kv rest ih =>
    obtain ⟨k0, w⟩ := kv
    by_cases h : k0 = k
    · subst h
      simp [removeKey, lookup, hne', ih]
    · simp [removeKey, h, lookup, ih]

theorem lookup_append_of_none (a b : Dict) (k : String) (h : lookup a k = Option.none) :
    lookup (a ++ b) k = lookup b k := by
  induction a with
  | nil => simp
  | cons kv rest ih =>
    obtain ⟨k0, w⟩ := kv
    by_cases h0 : k0 = k
    · simp [lookup, h0] at h
    · simp only [lookup, h0, if_false] at h
      simp [lookup, h0, ih h]

theorem lookup_append_of_some (a b : Dict) (k : String) (x : PyVal)
    (h : lookup a k = some x) : lookup (a ++ b) k = some x := by
  induction a with
  | nil => simp [lookup] at h
  | cons kv rest ih =>
    obtain ⟨k0, w⟩ := kv
    by_cases h0 : k0 = k
    · simp only [lookup, h0, if_true] at h
      simp [lookup, h0, h]
    · simp only [lookup, h0, if_false] at h
      simp [lookup, h0, ih h]

/-! ## The exception module (`src/common/exceptions.py`)

`GenericException.__init__(msg, code=-1)` stores the message and the code.
`InvalidModelSchema.__init__(msg, code=-1)` forwards `msg.split("\n")[-1]`
to the base class; every other subclass inherits the base initializer
unchanged. -/

/-- The observable state of an exception object: the stored message
(`str(e)`) and the numeric `code` attribute. -/
structure GenericException where
  msg : String
  code : Int
deriving DecidableEq

/-- The exception classes declared in `src/common/exceptions.py`. -/
inductive ExcClass where
  | genericException
  | invalidModelSchema
  | unexpectedResult
  | unexpectedInput
  | invalidMemoryValue
  | modelMainEntryPointNotFound
  | sharedAndLocalPathCollision
  | unInitGitTool
  | noCommonAncestor
  | httpRequesterException
  | dataRobotClientError
  | nonMergeCommitError
deriving DecidableEq

/-- Python's `s.split("\n")` on the character list of `s`: the maximal runs
between newline characters, kept in order, empty runs included.  The result
is never empty (`"".split("\n") == [""]`). -/
def splitNL : List Char → List (List Char)
  | [] => [[]]
  | c :: rest =>
    if c = '\n' then [] :: splitNL rest
    else
      match splitNL rest with
      | [] => [[c]]
      | h :: t => (c :: h) :: t

/-- Python's `l[-1]` on a list of lines (the empty list case is unreachable,
`splitNL` never returns an empty list). -/
def lastElem : List (List Char) → List Char
  | [] => []
  | [x] => x
  | _ :: y :: t => lastElem (y :: t)

/-- `msg.split("\n")[-1]`: the last line of a message. -/
def lastLine (s : String) : String :=
  String.mk (lastElem (splitNL s.data))

/-- The base initializer `GenericException.__init__(msg, code)`. -/
def genericInit (msg : String) (code : Int) : GenericException :=
  { msg := msg, code := code }

/-- Constructing an exception of class `cls` with an explicit code:
`InvalidModelSchema` forwards only the last line of the message to the base
initializer, every other class forwards the message verbatim. -/
def mkException (cls : ExcClass) (msg : String) (code : Int) : GenericException :=
  match cls with
  | .invalidModelSchema => genericInit (lastLine msg) code
  | _ => genericInit msg code

/-- Constructing an exception at a raising site that supplies no code: the
`code=-1` default of both initializers applies. -/
def mkExceptionNoCode (cls : ExcClass) (msg : String) : GenericException :=
  mkException cls msg (-1)

theorem splitNL_ne_nil (s : List Char) : splitNL s ≠ [] := by
  cases s with
  | nil => simp [splitNL]
  | cons c rest =>
    by_cases h : c = '\n'
    · simp [splitNL, h]
    · simp only [splitNL, h, if_false]
      cases splitNL rest <;> simp

theorem splitNL_no_newline (s : List Char) (h : '\n' ∉ s) : splitNL s = [s] := by
  induction s with
  | nil => simp [splitNL]
  | cons c rest ih =>
    have hc : c ≠ '\n' := by
      intro hc; exact h (hc ▸ List.mem_cons_self c rest)
    have hrest : '\n' ∉ rest := fun hm => h (List.mem_cons_of_mem c hm)
    simp [splitNL, hc, ih hrest]

theorem splitNL_length_ge_two (s : List Char) (h : '\n' ∈ s) :
    2 ≤ (splitNL s).length := by
  induction s with
  | nil => simp at h
  | cons c rest ih =>
    by_cases hc : c = '\n'
    · have h1 : 1 ≤ (splitNL rest).length :=
        List.length_pos.mpr (splitNL_ne_nil rest)
      simp only [splitNL, hc, if_true, List.length_cons]
      omega
    · have hrest : '\n' ∈ rest := by
        cases List.mem_cons.mp h with
        | inl h0 => exact absurd h0.symm hc
        | inr h0 => exact h0
      have h2 := ih hrest
      simp only [splitNL, hc, if_false]
      cases hs : splitNL rest with
      | nil => exact absurd hs (splitNL_ne_nil rest)
      | cons x t =>
        rw [hs] at h2
        simpa using h2

theorem lastElem_cons_of_ne_nil (x : List Char) (t : List (List Char)) (h : t ≠ []) :
    lastElem (x :: t) = lastElem t := by
  cases t with
  | nil => exact absurd rfl h
  | cons y t' => rfl

theorem splitNL_last_append (a b : List Char) :
    lastElem (splitNL (a ++ '\n' :: b)) = lastElem (splitNL b) := by
  induction a with
  | nil =>
    show lastElem (splitNL ('\n' :: b)) = lastElem (splitNL b)
    simp only [splitNL, if_true]
    exact lastElem_cons_of_ne_nil _ _ (splitNL_ne_nil b)
  | cons c a' ih =>
    by_cases hc : c = '\n'
    · subst hc
      show lastElem (splitNL ('\n' :: (a' ++ '\n' :: b))) = _
      simp only [splitNL, if_true]
      rw [lastElem_cons_of_ne_nil _ _ (splitNL_ne_nil _)]
      exact ih
    · show lastElem (splitNL (c :: (a' ++ '\n' :: b))) = _
      simp only [splitNL, hc, if_false]
      cases hs : splitNL (a' ++ '\n' :: b) with
      | nil => exact absurd hs (splitNL_ne_nil _)
      | cons h t =>
        have hlen : 2 ≤ (splitNL (a' ++ '\n' :: b)).length :=
          splitNL_length_ge_two _ (by simp)
        rw [hs] at hlen
        have ht : t ≠ [] := by
          intro h0
          rw [h0] at hlen
          simp at hlen
        rw [lastElem_cons_of_ne_nil _ _ ht, ← lastElem_cons_of_ne_nil h t ht, ← hs, ih]

theorem string_data_append (a b : String) : (a ++ b).data = a.data ++ b.data := rfl

/-- C1: constructing the invalid-schema failure object keeps only the last
line of the message: a newline-free message is stored unchanged, and for a
message of the form `a ++ "\n" ++ b` with `b` newline-free the stored,
externally visible message is exactly `b` (the text after the final
newline). -/
theorem invalidModelSchema_keeps_last_line (msg : String) (code : Int) :
    ('\n' ∉ msg.data → (mkException ExcClass.invalidModelSchema msg code).msg = msg) ∧
    (∀ a b : String, msg = a ++ "\n" ++ b → '\n' ∉ b.data →
      (mkException ExcClass.invalidModelSchema msg code).msg = b) := by
  constructor
  · intro h
    show String.mk (lastElem (splitNL msg.data)) = msg
    rw [splitNL_no_newline msg.data h]
    rfl
  · intro a b hmsg hb
    show String.mk (lastElem (splitNL msg.data)) = b
    have hdata : msg.data = a.data ++ '\n' :: b.data := by
      rw [hmsg]
      simp [string_data_append]
    rw [hdata, splitNL_last_append, splitNL_no_newline b.data hb]
    rfl

/-- Witness for C1 at a concrete two-line message. -/
theorem invalidModelSchema_keeps_last_line_witness :
    (mkException ExcClass.invalidModelSchema "first line\nlast line" 7).msg = "last line" :=
  (invalidModelSchema_keeps_last_line "first line\nlast line" 7).2
    "first line" "last line" rfl (by decide)

/-- C9: every failure object carries a numeric code; a raising site that
supplies no code stores the default `-1`, and a supplied code is stored
unchanged, for every exception class of the module. -/
theorem exception_code_stored (cls : ExcClass) (msg : String) :
    (mkExceptionNoCode cls msg).code = -1 ∧
    ∀ code : Int, (mkException cls msg code).code = code := by
  refine ⟨?_, fun code => ?_⟩
  · cases cls <;> rfl
  · cases cls <;> rfl

/-- C10: the last-line truncation is specific to the invalid-schema class:
every other exception class stores the constructor's message verbatim,
including multi-line messages. -/
theorem non_schema_exceptions_keep_msg (cls : ExcClass)
    (h : cls ≠ ExcClass.invalidModelSchema) (msg : String) (code : Int) :
    (mkException cls msg code).msg = msg := by
  cases cls
  case invalidModelSchema => exact absurd rfl h
  all_goals rfl

/-- Witness for C10: `UnexpectedResult` keeps a two-line message verbatim. -/
theorem non_schema_exceptions_keep_msg_witness :
    (mkException ExcClass.unexpectedResult "first line\nlast line" 3).msg =
      "first line\nlast line" :=
  non_schema_exceptions_keep_msg ExcClass.unexpectedResult (by decide)
    "first line\nlast line" 3

namespace ModelSchema

/-- Modelled from the spec: `ModelSchema.get_value(metadata, *keys)` of the
missing `schema_validator.py` walks the key sequence through nested
mappings and, per the unit tests (`TestModelSchemaGetValue`), returns
Python `None` the moment a segment is missing or the current node is not a
mapping; with no keys it returns the document itself. -/
def get_value : PyVal → List String → PyVal
  | v, [] => v
  | PyVal.dict d, k :: ks =>
    (match lookup d k with
     | some v => get_value v ks
     | Option.none => PyVal.none)
  | _, _ :: _ => PyVal.none

end ModelSchema

/-- The key sequence `ks` resolves through nested mappings from `v` to the
value `w`: every segment finds a dictionary entry. -/
inductive Resolves : PyVal → List String → PyVal → Prop where
  | nil (v : PyVal) : Resolves v [] v
  | cons {d : Dict} {k : String} {ks : List String} {v w : PyVal} :
      lookup d k = some v → Resolves v ks w → Resolves (PyVal.dict d) (k :: ks) w

/-- Counterexample for C8: the absent sentinel of `get_value` is Python
`None` itself and is therefore indistinguishable from a legitimately null
stored value: on `{"a": None}` the lookup of the present key `"a"` and the
lookup of the missing key `"b"` both return `None`. -/
theorem get_value_sentinel_is_ambiguous :
    ModelSchema.get_value (PyVal.dict [("a", PyVal.none)]) ["a"] = PyVal.none ∧
    ModelSchema.get_value (PyVal.dict [("a", PyVal.none)]) ["b"] = PyVal.none :=
  ⟨rfl, rfl⟩

/-- C8 (amended): `get_value` is total (never raises); when every segment
resolves through nested mappings it returns the resolved value, and
otherwise — the moment a segment is missing or the node is not a mapping —
it returns Python `None`, which is the absent sentinel. -/
theorem get_value_resolves_or_none (v : PyVal) (ks : List String) :
    (∃ w, Resolves v ks w ∧ ModelSchema.get_value v ks = w) ∨
    ((¬ ∃ w, Resolves v ks w) ∧ ModelSchema.get_value v ks = PyVal.none) := by
  induction ks generalizing v with
  | nil => exact Or.inl ⟨v, Resolves.nil v, by simp [ModelSchema.get_value]⟩
  | cons k ks' ih =>
    cases v with
    | dict d =>
      cases hl : lookup d k with
      | some x =>
        cases ih x with
        | inl h =>
          obtain ⟨w, hr, he⟩ := h
          exact Or.inl ⟨w, Resolves.cons hl hr, by simp [ModelSchema.get_value, hl, he]⟩
        | inr h =>
          obtain ⟨hn, he⟩ := h
          refine Or.inr ⟨?_, by simp [ModelSchema.get_value, hl, he]⟩
          rintro ⟨w, hr⟩
          cases hr with
          | cons hl' hr' =>
            rw [hl] at hl'
            cases hl'
            exact hn ⟨w, hr'⟩
      | none =>
        refine Or.inr ⟨?_, by simp [ModelSchema.get_value, hl]⟩
        rintro ⟨w, hr⟩
        cases hr with
        | cons hl' hr' => rw [hl] at hl'; cases hl'
    | none =>
      refine Or.inr ⟨?_, by simp [ModelSchema.get_value]⟩
      rintro ⟨w, hr⟩
      cases hr
    | bool b =>
      refine Or.inr ⟨?_, by simp [ModelSchema.get_value]⟩
      rintro ⟨w, hr⟩
      cases hr
    | int n =>
      refine Or.inr ⟨?_, by simp [ModelSchema.get_value]⟩
      rintro ⟨w, hr⟩
      cases hr
    | str s =>
      refine Or.inr ⟨?_, by simp [ModelSchema.get_value]⟩
      rintro ⟨w, hr⟩
      cases hr
    | list xs =>
      refine Or.inr ⟨?_, by simp [ModelSchema.get_value]⟩
      rintro ⟨w, hr⟩
      cases hr

namespace ModelSchema

/-! ## Key constants of `ModelSchema`

Modelled from the spec: the test file references these constants of the
missing `schema_validator.py`; their concrete string values are not
observable in the corpus, so representative strings are chosen. -/

def MODEL_ID_KEY : String := "model_id"
def TARGET_TYPE_KEY : String := "target_type"
def TARGET_NAME_KEY : String := "target_name"
def SETTINGS_KEY : String := "settings"
def NAME_KEY : String := "name"
def DESCRIPTION_KEY : String := "description"
def VERSION_KEY : String := "version"
def MODEL_ENV_KEY : String := "model_environment_id"
def INCLUDE_GLOB_KEY : String := "include_glob_pattern"
def EXCLUDE_GLOB_KEY : String := "exclude_glob_pattern"
def TEST_KEY : String := "test"
def TEST_DATA_KEY : String := "test_data"
def CHECKS_KEY : String := "checks"
def STABILITY_KEY : String := "stability"
def CHECK_ENABLED_KEY : String := "enabled"
def BLOCK_DEPLOYMENT_IF_FAILS_KEY : String := "block_deployment_if_fails"
def MINIMUM_PAYLOAD_SIZE_KEY : String := "minimum_payload_size"
def MAXIMUM_PAYLOAD_SIZE_KEY : String := "maximum_payload_size"
def POSITIVE_CLASS_LABEL_KEY : String := "positive_class_label"
def NEGATIVE_CLASS_LABEL_KEY : String := "negative_class_label"
def CLASS_LABELS_KEY : String := "class_labels"
def PREDICTION_THRESHOLD_KEY : String := "prediction_threshold"
def MULTI_MODELS_KEY : String := "datarobot_models"
def MODEL_ENTRY_PATH_KEY : String := "model_path"
def MODEL_ENTRY_META_KEY : String := "model_metadata"

/-- The target-type discriminator values (a closed enumeration). -/
def TARGET_TYPE_REGRESSION_KEY : String := "Regression"
def TARGET_TYPE_BINARY_KEY : String := "Binary"
def TARGET_TYPE_MULTICLASS_KEY : String := "Multiclass"
def TARGET_TYPE_UNSTRUCTURED_REGRESSION_KEY : String := "Unstructured-Regression"
def TARGET_TYPE_UNSTRUCTURED_BINARY_KEY : String := "Unstructured-Binary"
def TARGET_TYPE_UNSTRUCTURED_MULTICLASS_KEY : String := "Unstructured-Multiclass"
def TARGET_TYPE_UNSTRUCTURED_OTHER_KEY : String := "Unstructured-Other"

/-- A binary variant of the discriminator. -/
abbrev isBinaryType (t : String) : Prop :=
  t = TARGET_TYPE_BINARY_KEY ∨ t = TARGET_TYPE_UNSTRUCTURED_BINARY_KEY

/-- A multiclass variant of the discriminator. -/
abbrev isMulticlassType (t : String) : Prop :=
  t = TARGET_TYPE_MULTICLASS_KEY ∨ t = TARGET_TYPE_UNSTRUCTURED_MULTICLASS_KEY

/-- A regression variant of the discriminator. -/
abbrev isRegressionType (t : String) : Prop :=
  t = TARGET_TYPE_REGRESSION_KEY ∨ t = TARGET_TYPE_UNSTRUCTURED_REGRESSION_KEY

/-- A member of the closed target-type enumeration. -/
abbrev isValidTargetType (t : String) : Prop :=
  isRegressionType t ∨ isBinaryType t ∨ isMulticlassType t ∨
    t = TARGET_TYPE_UNSTRUCTURED_OTHER_KEY

/-! ## Failure messages (spec §7) -/

/-- `"Missing key: '<key>'"` for an absent mandatory key. -/
def missingKeyMsg (k : String) : String := "Missing key: '" ++ k ++ "'"

/-- `"Wrong key '<key>'"` for an undeclared key. -/
def wrongKeyMsg (k : String) : String := "Wrong key '" ++ k ++ "'"

/-- Type mismatch for a declared key. -/
def wrongTypeMsg (k : String) : String := "Invalid type for key '" ++ k ++ "'"

/-- The cross-field stability-check violation message, embedding both
literal numeric values. -/
def stabilityMsg (mn mx : Int) : String :=
  "Stability test check minimum payload size (" ++ toString mn ++
    ") is higher than the maximum (" ++ toString mx ++ ")"

/-- The invalid-schema failure object surfaced to the caller: the message
template and the default code `-1` (spec §7). -/
def invalid (m : String) : GenericException := { msg := m, code := -1 }

/-- Short-circuiting sequencing of validation steps: the first failure
aborts the call (spec §7 propagation policy). -/
def andThen {A : Type} (a : Except GenericException Unit)
    (b : Except GenericException A) : Except GenericException A :=
  match a with
  | Except.error e => Except.error e
  | Except.ok _ => b

/-! ## The validation pipeline

Modelled from the spec (§4.3–§4.7): the `schema_validator.py` engine is not
in the corpus; the checks below follow the declared key schema, the
conditional per-target-type rules, the cross-field stability constraint and
the default injection, with messages as in §7. -/

/-- The unconditionally mandatory top-level keys of a single-model document,
in checking order (discriminator early, spec §4.4). -/
def mandatoryKeys : List String :=
  [ MODEL_ID_KEY, TARGET_TYPE_KEY, TARGET_NAME_KEY, SETTINGS_KEY, VERSION_KEY]

/-- The first mandatory key of `ks` absent from `d`. -/
def firstMissingKey (d : Dict) : List String → Option String
  | [] => Option.none
  | k :: rest =>
    match lookup d k with
    | Option.none => some k
    | some _ => firstMissingKey d rest

/-- Presence of every unconditionally mandatory top-level key. -/
def checkMandatoryPresent (d : Dict) : Except GenericException Unit :=
  match firstMissingKey d mandatoryKeys with
  | some k => Except.error (invalid (missingKeyMsg k))
  | Option.none => Except.ok ()

/-- The first key of `d` that is not in the declared set `allowed`. -/
def firstBadKey (allowed : List String) : Dict → Option String
  | [] => Option.none
  | (k, _) :: rest => if k ∈ allowed then firstBadKey allowed rest else some k

/-- The declared keys of the settings sub-document. -/
def settingsAllowed : List String := [NAME_KEY, DESCRIPTION_KEY]

/-- The settings sub-document: must be a mapping, must contain the display
name, admits no undeclared key.  Its absence is reported by
`checkMandatoryPresent`. -/
def checkSettings (d : Dict) : Except GenericException Unit :=
  match lookup d SETTINGS_KEY with
  | some (PyVal.dict s) =>
    if (lookup s NAME_KEY).isNone then Except.error (invalid (missingKeyMsg NAME_KEY))
    else
      match firstBadKey settingsAllowed s with
      | some k => Except.error (invalid (wrongKeyMsg k))
      | Option.none => Except.ok ()
  | some _ => Except.error (invalid (wrongTypeMsg SETTINGS_KEY))
  | Option.none => Except.ok ()

/-- The declared keys of the version sub-document. -/
def versionAllowed : List String := [ MODEL_ENV_KEY, INCLUDE_GLOB_KEY, EXCLUDE_GLOB_KEY]

/-- A glob-pattern key, when present, must hold a list. -/
def checkGlobList (v : Dict) (k : String) : Except GenericException Unit :=
  match lookup v k with
  | Option.none => Except.ok ()
  | some (PyVal.list _) => Except.ok ()
  | some _ => Except.error (invalid (wrongTypeMsg k))

/-- The version sub-document: must be a mapping, must contain the
model-environment id, admits only declared keys, and the glob keys must be
lists when present. -/
def checkVersion (d : Dict) : Except GenericException Unit :=
  match lookup d VERSION_KEY with
  | some (PyVal.dict v) =>
    if (lookup v MODEL_ENV_KEY).isNone then
      Except.error (invalid (missingKeyMsg MODEL_ENV_KEY))
    else
      match firstBadKey versionAllowed v with
      | some k => Except.error (invalid (wrongKeyMsg k))
      | Option.none =>
        andThen (checkGlobList v INCLUDE_GLOB_KEY) (checkGlobList v EXCLUDE_GLOB_KEY)
  | some _ => Except.error (invalid (wrongTypeMsg VERSION_KEY))
  | Option.none => Except.ok ()

/-- The conditional per-target-type mandatory keys (spec §4.4): binary
variants require both class labels, multiclass variants require a
non-empty class-labels list. -/
def checkConditional (d : Dict) : Except GenericException Unit :=
  match lookup d TARGET_TYPE_KEY with
  | some (PyVal.str t) =>
    if isValidTargetType t then
      if isBinaryType t then
        if (lookup d POSITIVE_CLASS_LABEL_KEY).isNone then
          Except.error (invalid (missingKeyMsg POSITIVE_CLASS_LABEL_KEY))
        else if (lookup d NEGATIVE_CLASS_LABEL_KEY).isNone then
          Except.error (invalid (missingKeyMsg NEGATIVE_CLASS_LABEL_KEY))
        else Except.ok ()
      else if isMulticlassType t then
        match lookup d CLASS_LABELS_KEY with
        | some (PyVal.list (_ :: _)) => Except.ok ()
        | some (PyVal.list []) =>
          Except.error (invalid ("Empty key: '" ++ CLASS_LABELS_KEY ++ "'"))
        | some _ => Except.error (invalid (wrongTypeMsg CLASS_LABELS_KEY))
        | Option.none => Except.error (invalid (missingKeyMsg CLASS_LABELS_KEY))
      else Except.ok ()
    else Except.error (invalid ("Invalid target type '" ++ t ++ "'"))
  | some _ => Except.error (invalid (wrongTypeMsg TARGET_TYPE_KEY))
  | Option.none => Except.error (invalid (missingKeyMsg TARGET_TYPE_KEY))

/-- The per-target-type optional/mandatory keys admitted at the top level
beyond the base set (a key of one variant is forbidden outside it). -/
def condAllowed (t : String) : List String :=
  if isBinaryType t then [POSITIVE_CLASS_LABEL_KEY, NEGATIVE_CLASS_LABEL_KEY]
  else if isMulticlassType t then [CLASS_LABELS_KEY]
  else if isRegressionType t then [PREDICTION_THRESHOLD_KEY]
  else []

/-- The base declared top-level keys of a single-model document. -/
def baseAllowed : List String :=
  [ MODEL_ID_KEY, TARGET_TYPE_KEY, TARGET_NAME_KEY, SETTINGS_KEY, VERSION_KEY, TEST_KEY]

/-- The declared key set of a single-model document, given its current
discriminator value. -/
def allowedKeys (d : Dict) : List String :=
  baseAllowed ++
    (match lookup d TARGET_TYPE_KEY with
     | some (PyVal.str t) => condAllowed t
     | _ => [])

/-- No undeclared key at the top level. -/
def checkExtraKeys (d : Dict) : Except GenericException Unit :=
  match firstBadKey (allowedKeys d) d with
  | some k => Except.error (invalid (wrongKeyMsg k))
  | Option.none => Except.ok ()

/-- The declared keys of the stability-check sub-document. -/
def stabilityAllowed : List String :=
  [CHECK_ENABLED_KEY, BLOCK_DEPLOYMENT_IF_FAILS_KEY,
   MINIMUM_PAYLOAD_SIZE_KEY, MAXIMUM_PAYLOAD_SIZE_KEY]

/-- The stability check: declared keys only, and when both payload bounds
are present the minimum must not exceed the maximum (spec §4.5). -/
def checkStability (sd : Dict) : Except GenericException Unit :=
  match firstBadKey stabilityAllowed sd with
  | some k => Except.error (invalid (wrongKeyMsg k))
  | Option.none =>
    match lookup sd MINIMUM_PAYLOAD_SIZE_KEY, lookup sd MAXIMUM_PAYLOAD_SIZE_KEY with
    | some (PyVal.int mn), some (PyVal.int mx) =>
      if mx < mn then Except.error (invalid (stabilityMsg mn mx)) else Except.ok ()
    | _, _ => Except.ok ()

/-- The checks sub-document of the test sub-document. -/
def checkChecks (cd : Dict) : Except GenericException Unit :=
  match firstBadKey [STABILITY_KEY] cd with
  | some k => Except.error (invalid (wrongKeyMsg k))
  | Option.none =>
    match lookup cd STABILITY_KEY with
    | some (PyVal.dict sd) => checkStability sd
    | some _ => Except.error (invalid (wrongTypeMsg STABILITY_KEY))
    | Option.none => Except.ok ()

/-- The body of the test sub-document. -/
def checkTestDict (td : Dict) : Except GenericException Unit :=
  match firstBadKey [TEST_DATA_KEY, CHECKS_KEY] td with
  | some k => Except.error (invalid (wrongKeyMsg k))
  | Option.none =>
    match lookup td CHECKS_KEY with
    | some (PyVal.dict cd) => checkChecks cd
    | some _ => Except.error (invalid (wrongTypeMsg CHECKS_KEY))
    | Option.none => Except.ok ()

/-- The optional test sub-document. -/
def checkTest (d : Dict) : Except GenericException Unit :=
  match lookup d TEST_KEY with
  | some (PyVal.dict td) => checkTestDict td
  | some _ => Except.error (invalid (wrongTypeMsg TEST_KEY))
  | Option.none => Except.ok ()

/-- Default injection for one glob key: appends an empty list when the key
is absent (spec §4.6). -/
def ensureGlob (v : Dict) (k : String) : Dict :=
  if (lookup v k).isNone then v ++ [(k, PyVal.list [])] else v

/-- The normalized version sub-document value: both glob keys defaulted to
empty lists. -/
def normalizeVersionVal : PyVal → PyVal
  | PyVal.dict v =>
    PyVal.dict (ensureGlob (ensureGlob v INCLUDE_GLOB_KEY) EXCLUDE_GLOB_KEY)
  | x => x

/-- The normalized copy of a validated single-model document (the input is
not mutated: a new list is built). -/
def normalizeSingleDict (d : Dict) : Dict :=
  d.map (fun kv => if kv.1 = VERSION_KEY then (kv.1, normalizeVersionVal kv.2) else kv)

/-- The single-model pipeline on the entries of a top-level mapping. -/
def validateSingleDict (d : Dict) : Except GenericException PyVal :=
  andThen (checkMandatoryPresent d) (andThen (checkSettings d) (andThen (checkVersion d)
    (andThen (checkConditional d) (andThen (checkExtraKeys d) (andThen (checkTest d)
      (Except.ok (PyVal.dict (normalizeSingleDict d))))))))

/-- Modelled from the spec: `ModelSchema.validate_and_transform_single` of
the missing `schema_validator.py` — validates a single-model document and
returns the normalized copy, or surfaces the first invalid-schema failure. -/
def validate_and_transform_single (doc : PyVal) : Except GenericException PyVal :=
  match doc with
  | PyVal.dict d => validateSingleDict d
  | _ => Except.error (invalid "Invalid model schema document")

/-- The declared keys of a multi-model entry. -/
def entryAllowed : List String := [ MODEL_ENTRY_PATH_KEY, MODEL_ENTRY_META_KEY]

/-- One multi-model entry: a relative path and a metadata sub-document that
goes through the single-model pipeline; the entry's path is preserved. -/
def validateEntryDict (ed : Dict) : Except GenericException PyVal :=
  if (lookup ed MODEL_ENTRY_PATH_KEY).isNone then
    Except.error (invalid (missingKeyMsg MODEL_ENTRY_PATH_KEY))
  else
    match lookup ed MODEL_ENTRY_META_KEY with
    | Option.none => Except.error (invalid (missingKeyMsg MODEL_ENTRY_META_KEY))
    | some meta =>
      match firstBadKey entryAllowed ed with
      | some k => Except.error (invalid (wrongKeyMsg k))
      | Option.none =>
        match validate_and_transform_single meta with
        | Except.error e => Except.error e
        | Except.ok m =>
          Except.ok (PyVal.dict (ed.map (fun kv =>
            if kv.1 = MODEL_ENTRY_META_KEY then (kv.1, m) else kv)))

/-- A multi-model entry must be a mapping. -/
def validateEntry (e : PyVal) : Except GenericException PyVal :=
  match e with
  | PyVal.dict ed => validateEntryDict ed
  | _ => Except.error (invalid "Invalid model entry")

/-- All entries in order; the first invalid entry aborts the call with its
underlying message unchanged (spec §4.7). -/
def validateEntries : List PyVal → Except GenericException (List PyVal)
  | [] => Except.ok []
  | e :: rest =>
    match validateEntry e with
    | Except.error err => Except.error err
    | Except.ok e2 =>
      match validateEntries rest with
      | Except.error err => Except.error err
      | Except.ok rest2 => Except.ok (e2 :: rest2)

/-- Modelled from the spec: `ModelSchema.validate_and_transform_multi` of
the missing `schema_validator.py` — confirms the multi-model shape, applies
the single-model pipeline to each entry's metadata in order, and rebuilds
the document with the normalized entries. -/
def validate_and_transform_multi (doc : PyVal) : Except GenericException PyVal :=
  match doc with
  | PyVal.dict d =>
    match lookup d MULTI_MODELS_KEY with
    | some (PyVal.list entries) =>
      match firstBadKey [MULTI_MODELS_KEY] d with
      | some k => Except.error (invalid (wrongKeyMsg k))
      | Option.none =>
        match validateEntries entries with
        | Except.error e => Except.error e
        | Except.ok es =>
          Except.ok (PyVal.dict (d.map (fun kv =>
            if kv.1 = MULTI_MODELS_KEY then (kv.1, PyVal.list es) else kv)))
    | some _ => Except.error (invalid (wrongTypeMsg MULTI_MODELS_KEY))
    | Option.none => Except.error (invalid (missingKeyMsg MULTI_MODELS_KEY))
  | _ => Except.error (invalid "Invalid model schema document")

/-- Modelled from the spec: `ModelSchema.is_multi_models_schema` — a
document is multi-model iff it carries the multi-model list key. -/
def is_multi_models_schema (doc : PyVal) : Bool :=
  match doc with
  | PyVal.dict d => (lookup d MULTI_MODELS_KEY).isSome
  | _ => false

/-- Modelled from the spec: `ModelSchema.is_single_model_schema` — a
document is single-model iff it does not carry the multi-model list key. -/
def is_single_model_schema (doc : PyVal) : Bool :=
  match doc with
  | PyVal.dict d => (lookup d MULTI_MODELS_KEY).isNone
  | _ => false

end ModelSchema

namespace ModelSchema

theorem andThen_err {A : Type} (e : GenericException) (b : Except GenericException A) :
    andThen (Except.error e) b = Except.error e := rfl

theorem andThen_ok_unit {A : Type} (b : Except GenericException A) :
    andThen (Except.ok ()) b = b := rfl

theorem andThen_ok_inv {A : Type} {a : Except GenericException Unit}
    {b : Except GenericException A} {w : A} (h : andThen a b = Except.ok w) :
    a = Except.ok () ∧ b = Except.ok w := by
  cases a with
  | error e => simp [andThen] at h
  | ok u => cases u; exact ⟨rfl, h⟩

theorem validateSingleDict_ok_inv {d : Dict} {w : PyVal}
    (h : validateSingleDict d = Except.ok w) :
    checkMandatoryPresent d = Except.ok () ∧ checkSettings d = Except.ok () ∧
    checkVersion d = Except.ok () ∧ checkConditional d = Except.ok () ∧
    checkExtraKeys d = Except.ok () ∧ checkTest d = Except.ok () ∧
    w = PyVal.dict (normalizeSingleDict d) := by
  unfold validateSingleDict at h
  obtain ⟨h1, h⟩ := andThen_ok_inv h
  obtain ⟨h2, h⟩ := andThen_ok_inv h
  obtain ⟨h3, h⟩ := andThen_ok_inv h
  obtain ⟨h4, h⟩ := andThen_ok_inv h
  obtain ⟨h5, h⟩ := andThen_ok_inv h
  obtain ⟨h6, h⟩ := andThen_ok_inv h
  exact ⟨h1, h2, h3, h4, h5, h6, (Except.ok.inj h).symm⟩

theorem validateSingleDict_of_checks {d : Dict}
    (h1 : checkMandatoryPresent d = Except.ok ()) (h2 : checkSettings d = Except.ok ())
    (h3 : checkVersion d = Except.ok ()) (h4 : checkConditional d = Except.ok ())
    (h5 : checkExtraKeys d = Except.ok ()) (h6 : checkTest d = Except.ok ()) :
    validateSingleDict d = Except.ok (PyVal.dict (normalizeSingleDict d)) := by
  unfold validateSingleDict
  rw [h1, andThen_ok_unit, h2, andThen_ok_unit, h3, andThen_ok_unit, h4,
    andThen_ok_unit, h5, andThen_ok_unit, h6, andThen_ok_unit]

theorem firstMissingKey_none_isSome {d : Dict} {ks : List String}
    (h : firstMissingKey d ks = Option.none) : ∀ k ∈ ks, (lookup d k).isSome := by
  induction ks with
  | nil => simp
  | cons k0 rest ih =>
    cases hl : lookup d k0 with
    | none => simp [firstMissingKey, hl] at h
    | some x =>
      simp only [firstMissingKey, hl] at h
      intro k hk
      cases List.mem_cons.mp hk with
      | inl h0 => subst h0; simp [hl]
      | inr h0 => exact ih h k h0

theorem firstMissingKey_of_all_present {d : Dict} {ks : List String}
    (h : ∀ k ∈ ks, (lookup d k).isSome) : firstMissingKey d ks = Option.none := by
  induction ks with
  | nil => rfl
  | cons k0 rest ih =>
    have h0 := h k0 (List.mem_cons_self k0 rest)
    cases hl : lookup d k0 with
    | none => rw [hl] at h0; simp at h0
    | some x =>
      simp only [firstMissingKey, hl]
      exact ih fun k hk => h k (List.mem_cons_of_mem k0 hk)

theorem firstMissingKey_removeKey {d : Dict} {ks : List String} {k : String}
    (h : firstMissingKey d ks = Option.none) (hk : k ∈ ks) :
    firstMissingKey (removeKey d k) ks = some k := by
  induction ks with
  | nil => simp at hk
  | cons k0 rest ih =>
    by_cases h0 : k0 = k
    · subst h0
      simp [firstMissingKey, lookup_removeKey_self]
    · cases hl : lookup d k0 with
      | none => simp [firstMissingKey, hl] at h
      | some x =>
        simp only [firstMissingKey, hl] at h
        have hk' : k ∈ rest := by
          cases List.mem_cons.mp hk with
          | inl h1 => exact absurd h1.symm h0
          | inr h1 => exact h1
        have hne : k0 ≠ k := h0
        simp only [firstMissingKey, lookup_removeKey_ne d k k0 hne, hl]
        exact ih h hk'

theorem firstMissingKey_setKey {d : Dict} {ks : List String} (k : String) (v : PyVal)
    (h : firstMissingKey d ks = Option.none) :
    firstMissingKey (setKey d k v) ks = Option.none := by
  apply firstMissingKey_of_all_present
  intro k0 hk0
  have h0 := firstMissingKey_none_isSome h k0 hk0
  by_cases he : k0 = k
  · subst he
    simp [lookup_setKey_self]
  · rw [lookup_setKey_ne d k k0 v he]
    exact h0

theorem firstMissingKey_removeKey_notin {d : Dict} {ks : List String} {k : String}
    (h : firstMissingKey d ks = Option.none) (hk : k ∉ ks) :
    firstMissingKey (removeKey d k) ks = Option.none := by
  apply firstMissingKey_of_all_present
  intro k0 hk0
  have hne : k0 ≠ k := fun he => hk (he ▸ hk0)
  rw [lookup_removeKey_ne d k k0 hne]
  exact firstMissingKey_none_isSome h k0 hk0

theorem firstBadKey_none_mem {allowed : List String} {d : Dict}
    (h : firstBadKey allowed d = Option.none) : ∀ kv ∈ d, kv.1 ∈ allowed := by
  induction d with
  | nil => simp
  | cons kv0 rest ih =>
    obtain ⟨k0, w0⟩ := kv0
    by_cases h0 : k0 ∈ allowed
    · simp only [firstBadKey, h0, if_true] at h
      intro kv hkv
      cases List.mem_cons.mp hkv with
      | inl h1 => subst h1; exact h0
      | inr h1 => exact ih h kv h1
    · simp [firstBadKey, h0] at h

theorem firstBadKey_of_all_mem {allowed : List String} {d : Dict}
    (h : ∀ kv ∈ d, kv.1 ∈ allowed) : firstBadKey allowed d = Option.none := by
  induction d with
  | nil => rfl
  | cons kv0 rest ih =>
    obtain ⟨k0, w0⟩ := kv0
    have h0 : k0 ∈ allowed := h (k0, w0) (List.mem_cons_self _ _)
    simp only [firstBadKey, h0, if_true]
    exact ih fun kv hkv => h kv (List.mem_cons_of_mem _ hkv)

theorem firstBadKey_setKey_mem {allowed : List String} {d : Dict} {k : String}
    (v : PyVal) (h : firstBadKey allowed d = Option.none) (hk : k ∈ allowed) :
    firstBadKey allowed (setKey d k v) = Option.none := by
  induction d with
  | nil => simp [setKey, firstBadKey, hk]
  | cons kv0 rest ih =>
    obtain ⟨k0, w0⟩ := kv0
    by_cases h0 : k0 ∈ allowed
    · simp only [firstBadKey, h0, if_true] at h
      by_cases he : k0 = k
      · subst he
        simp [setKey, firstBadKey, h0, h]
      · simp [setKey, he, firstBadKey, h0, ih h]
    · simp [firstBadKey, h0] at h

theorem firstBadKey_setKey_notmem {allowed : List String} {d : Dict} {k : String}
    (v : PyVal) (h : firstBadKey allowed d = Option.none) (hk : k ∉ allowed) :
    firstBadKey allowed (setKey d k v) = some k := by
  induction d with
  | nil => simp [setKey, firstBadKey, hk]
  | cons kv0 rest ih =>
    obtain ⟨k0, w0⟩ := kv0
    by_cases h0 : k0 ∈ allowed
    · simp only [firstBadKey, h0, if_true] at h
      by_cases he : k0 = k
      · subst he
        exact absurd h0 hk
      · simp [setKey, he, firstBadKey, h0, ih h]
    · simp [firstBadKey, h0] at h

theorem firstBadKey_removeKey {allowed : List String} {d : Dict} (k : String)
    (h : firstBadKey allowed d = Option.none) :
    firstBadKey allowed (removeKey d k) = Option.none := by
  induction d with
  | nil => rfl
  | cons kv0 rest ih =>
    obtain ⟨k0, w0⟩ := kv0
    by_cases h0 : k0 ∈ allowed
    · simp only [firstBadKey, h0, if_true] at h
      by_cases he : k0 = k
      · simp [removeKey, he, ih h]
      · simp [removeKey, he, firstBadKey, h0, ih h]
    · simp [firstBadKey, h0] at h

end ModelSchema

namespace ModelSchema

theorem checkSettings_congr {d1 d2 : Dict}
    (h : lookup d1 SETTINGS_KEY = lookup d2 SETTINGS_KEY) :
    checkSettings d1 = checkSettings d2 := by
  unfold checkSettings
  rw [h]

theorem checkVersion_congr {d1 d2 : Dict}
    (h : lookup d1 VERSION_KEY = lookup d2 VERSION_KEY) :
    checkVersion d1 = checkVersion d2 := by
  unfold checkVersion
  rw [h]

theorem checkTest_congr {d1 d2 : Dict}
    (h : lookup d1 TEST_KEY = lookup d2 TEST_KEY) :
    checkTest d1 = checkTest d2 := by
  unfold checkTest
  rw [h]

theorem checkConditional_congr {d1 d2 : Dict}
    (ht : lookup d1 TARGET_TYPE_KEY = lookup d2 TARGET_TYPE_KEY)
    (hp : lookup d1 POSITIVE_CLASS_LABEL_KEY = lookup d2 POSITIVE_CLASS_LABEL_KEY)
    (hn : lookup d1 NEGATIVE_CLASS_LABEL_KEY = lookup d2 NEGATIVE_CLASS_LABEL_KEY)
    (hc : lookup d1 CLASS_LABELS_KEY = lookup d2 CLASS_LABELS_KEY) :
    checkConditional d1 = checkConditional d2 := by
  unfold checkConditional
  rw [ht, hp, hn, hc]

theorem allowedKeys_congr {d1 d2 : Dict}
    (h : lookup d1 TARGET_TYPE_KEY = lookup d2 TARGET_TYPE_KEY) :
    allowedKeys d1 = allowedKeys d2 := by
  unfold allowedKeys
  rw [h]

theorem checkMandatoryPresent_ok_iff {d : Dict} :
    checkMandatoryPresent d = Except.ok () ↔
      firstMissingKey d mandatoryKeys = Option.none := by
  unfold checkMandatoryPresent
  cases h : firstMissingKey d mandatoryKeys <;> simp [h]

theorem checkExtraKeys_ok_iff {d : Dict} :
    checkExtraKeys d = Except.ok () ↔
      firstBadKey (allowedKeys d) d = Option.none := by
  unfold checkExtraKeys
  cases h : firstBadKey (allowedKeys d) d <;> simp [h]

theorem checkGlobList_ok_inv {v : Dict} {k : String}
    (h : checkGlobList v k = Except.ok ()) :
    ∀ x, lookup v k = some x → ∃ xs, x = PyVal.list xs := by
  intro x hx
  unfold checkGlobList at h
  rw [hx] at h
  cases x with
  | list xs => exact ⟨xs, rfl⟩
  | none => simp at h
  | bool b => simp at h
  | int n => simp at h
  | str s => simp at h
  | dict e => simp at h

theorem isSome_of_not_isNone {o : Option PyVal} (h : ¬ o.isNone = true) :
    o.isSome := by
  cases o <;> simp_all

theorem binary_not_multiclass {t : String} (hb : isBinaryType t)
    (hm : isMulticlassType t) : False := by
  rcases hb with hb | hb <;> subst hb <;> revert hm <;> decide

theorem checkVersion_ok_inv {d : Dict} (hm : (lookup d VERSION_KEY).isSome)
    (h : checkVersion d = Except.ok ()) :
    ∃ v, lookup d VERSION_KEY = some (PyVal.dict v) ∧
      (lookup v MODEL_ENV_KEY).isSome ∧
      (∀ x, lookup v INCLUDE_GLOB_KEY = some x → ∃ xs, x = PyVal.list xs) ∧
      (∀ x, lookup v EXCLUDE_GLOB_KEY = some x → ∃ xs, x = PyVal.list xs) := by
  unfold checkVersion at h
  split at h
  · rename_i v hv
    refine ⟨v, hv, ?_⟩
    split at h
    · simp at h
    · rename_i henv
      refine ⟨isSome_of_not_isNone henv, ?_⟩
      split at h
      · simp at h
      · obtain ⟨hg1, hg2⟩ := andThen_ok_inv h
        exact ⟨checkGlobList_ok_inv hg1, checkGlobList_ok_inv hg2⟩
  · simp at h
  · rename_i hv
    rw [hv] at hm
    simp at hm

theorem checkConditional_ok_inv {d : Dict}
    (h : checkConditional d = Except.ok ()) :
    ∃ t, lookup d TARGET_TYPE_KEY = some (PyVal.str t) ∧ isValidTargetType t ∧
      (isBinaryType t → (lookup d POSITIVE_CLASS_LABEL_KEY).isSome ∧
        (lookup d NEGATIVE_CLASS_LABEL_KEY).isSome) ∧
      (isMulticlassType t →
        ∃ x xs, lookup d CLASS_LABELS_KEY = some (PyVal.list (x :: xs))) := by
  unfold checkConditional at h
  split at h
  · rename_i t hT
    split at h
    · rename_i hv
      refine ⟨t, hT, hv, ?_⟩
      split at h
      · rename_i hb
        split at h
        · simp at h
        · rename_i hp
          split at h
          · simp at h
          · rename_i hn
            exact ⟨fun _ => ⟨isSome_of_not_isNone hp, isSome_of_not_isNone hn⟩,
              fun hm => absurd (binary_not_multiclass hb hm) (fun f => f)⟩
      · rename_i hb
        split at h
        · rename_i hmc
          split at h
          · rename_i x xs hc
            exact ⟨fun hb2 => absurd hb2 hb, fun _ => ⟨x, xs, hc⟩⟩
          · simp at h
          · simp at h
          · simp at h
        · rename_i hmc
          exact ⟨fun hb2 => absurd hb2 hb, fun hm2 => absurd hm2 hmc⟩
    · simp at h
  · simp at h
  · simp at h

theorem validateSingleDict_err1 {d : Dict} {e : GenericException}
    (h : checkMandatoryPresent d = Except.error e) :
    validateSingleDict d = Except.error e := by
  unfold validateSingleDict
  rw [h, andThen_err]

theorem validateSingleDict_err2 {d : Dict} {e : GenericException}
    (h1 : checkMandatoryPresent d = Except.ok ())
    (h : checkSettings d = Except.error e) :
    validateSingleDict d = Except.error e := by
  unfold validateSingleDict
  rw [h1, andThen_ok_unit, h, andThen_err]

theorem validateSingleDict_err3 {d : Dict} {e : GenericException}
    (h1 : checkMandatoryPresent d = Except.ok ())
    (h2 : checkSettings d = Except.ok ())
    (h : checkVersion d = Except.error e) :
    validateSingleDict d = Except.error e := by
  unfold validateSingleDict
  rw [h1, andThen_ok_unit, h2, andThen_ok_unit, h, andThen_err]

theorem validateSingleDict_err4 {d : Dict} {e : GenericException}
    (h1 : checkMandatoryPresent d = Except.ok ())
    (h2 : checkSettings d = Except.ok ())
    (h3 : checkVersion d = Except.ok ())
    (h : checkConditional d = Except.error e) :
    validateSingleDict d = Except.error e := by
  unfold validateSingleDict
  rw [h1, andThen_ok_unit, h2, andThen_ok_unit, h3, andThen_ok_unit, h, andThen_err]

theorem validateSingleDict_err5 {d : Dict} {e : GenericException}
    (h1 : checkMandatoryPresent d = Except.ok ())
    (h2 : checkSettings d = Except.ok ())
    (h3 : checkVersion d = Except.ok ())
    (h4 : checkConditional d = Except.ok ())
    (h : checkExtraKeys d = Except.error e) :
    validateSingleDict d = Except.error e := by
  unfold validateSingleDict
  rw [h1, andThen_ok_unit, h2, andThen_ok_unit, h3, andThen_ok_unit, h4,
    andThen_ok_unit, h, andThen_err]

theorem validateSingleDict_err6 {d : Dict} {e : GenericException}
    (h1 : checkMandatoryPresent d = Except.ok ())
    (h2 : checkSettings d = Except.ok ())
    (h3 : checkVersion d = Except.ok ())
    (h4 : checkConditional d = Except.ok ())
    (h5 : checkExtraKeys d = Except.ok ())
    (h : checkTest d = Except.error e) :
    validateSingleDict d = Except.error e := by
  unfold validateSingleDict
  rw [h1, andThen_ok_unit, h2, andThen_ok_unit, h3, andThen_ok_unit, h4,
    andThen_ok_unit, h5, andThen_ok_unit, h, andThen_err]

end ModelSchema

namespace ModelSchema

/-- The validation entry point on a mapping is the dict pipeline. -/
theorem vats_single_dict (d : Dict) :
    validate_and_transform_single (PyVal.dict d) = validateSingleDict d := rfl

/-- The call failed with a structured failure whose message contains `m`. -/
def FailsWith (r : Except GenericException PyVal) (m : String) : Prop :=
  ∃ e, r = Except.error e ∧ ∃ p q, e.msg = p ++ m ++ q

theorem failsWith_of_error {r : Except GenericException PyVal} {m : String}
    {e : GenericException} (h : r = Except.error e) (hm : e.msg = m) :
    FailsWith r m :=
  ⟨e, h, "", "", by rw [hm]; simp⟩

theorem base_sub_allowed {d : Dict} {k : String} (hk : k ∈ baseAllowed) :
    k ∈ allowedKeys d := by
  unfold allowedKeys
  exact List.mem_append_left _ hk

theorem ne_k_of_mem_allowed {d : Dict} {k k' : String}
    (h1 : k' ∈ allowedKeys d) (h2 : k ∉ allowedKeys d) : k' ≠ k :=
  fun he => h2 (he ▸ h1)

theorem allowedKeys_eq {d : Dict} {t : String}
    (hT : lookup d TARGET_TYPE_KEY = some (PyVal.str t)) :
    allowedKeys d = baseAllowed ++ condAllowed t := by
  unfold allowedKeys
  rw [hT]

theorem cond_sub_allowed {d : Dict} {t k : String}
    (hT : lookup d TARGET_TYPE_KEY = some (PyVal.str t)) (hk : k ∈ condAllowed t) :
    k ∈ allowedKeys d := by
  rw [allowedKeys_eq hT]
  exact List.mem_append_right _ hk

theorem pos_mem_cond {t : String} (hb : isBinaryType t) :
    POSITIVE_CLASS_LABEL_KEY ∈ condAllowed t := by
  unfold condAllowed
  rw [if_pos hb]
  decide

theorem neg_mem_cond {t : String} (hb : isBinaryType t) :
    NEGATIVE_CLASS_LABEL_KEY ∈ condAllowed t := by
  unfold condAllowed
  rw [if_pos hb]
  decide

theorem ensureGlob_lookup_of_none {v : Dict} {k : String}
    (h : lookup v k = Option.none) :
    lookup (ensureGlob v k) k = some (PyVal.list []) := by
  unfold ensureGlob
  rw [h]
  simp only [Option.isNone_none, if_true]
  rw [lookup_append_of_none v _ k h]
  simp [lookup]

theorem ensureGlob_lookup_of_some {v : Dict} {k : String} {x : PyVal}
    (h : lookup v k = some x) : lookup (ensureGlob v k) k = some x := by
  unfold ensureGlob
  rw [h]
  simp [h]

theorem ensureGlob_lookup_ne {v : Dict} {k k' : String} (hne : k' ≠ k) :
    lookup (ensureGlob v k) k' = lookup v k' := by
  have hne' : ¬ k = k' := fun h0 => hne h0.symm
  unfold ensureGlob
  split
  · cases h' : lookup v k' with
    | none =>
      rw [lookup_append_of_none v _ k' h']
      simp [lookup, hne']
    | some y => exact lookup_append_of_some v _ k' y h'
  · rfl

theorem lookup_normalize_version (d : Dict) :
    lookup (normalizeSingleDict d) VERSION_KEY =
      (lookup d VERSION_KEY).map normalizeVersionVal := by
  induction d with
  | nil => simp [normalizeSingleDict, lookup]
  | cons kv rest ih =>
    obtain ⟨k0, w⟩ := kv
    by_cases h : k0 = VERSION_KEY
    · subst h
      simp [normalizeSingleDict, lookup]
    · simp only [normalizeSingleDict, List.map_cons]
      rw [if_neg h]
      simp only [lookup, h, if_false]
      exact ih

theorem remove_mandatory_fails {d : Dict} {w : PyVal}
    (h : validateSingleDict d = Except.ok w) {k : String} (hk : k ∈ mandatoryKeys) :
    validateSingleDict (removeKey d k) = Except.error (invalid (missingKeyMsg k)) := by
  obtain ⟨h1, _, _, _, _, _, _⟩ := validateSingleDict_ok_inv h
  apply validateSingleDict_err1
  unfold checkMandatoryPresent
  rw [firstMissingKey_removeKey (checkMandatoryPresent_ok_iff.mp h1) hk]

theorem remove_settings_name_fails {d : Dict} {w : PyVal} {s : Dict}
    (h : validateSingleDict d = Except.ok w)
    (_hs : lookup d SETTINGS_KEY = some (PyVal.dict s)) :
    validateSingleDict (setKey d SETTINGS_KEY (PyVal.dict (removeKey s NAME_KEY))) =
      Except.error (invalid (missingKeyMsg NAME_KEY)) := by
  obtain ⟨h1, _, _, _, _, _, _⟩ := validateSingleDict_ok_inv h
  apply validateSingleDict_err2
  · exact checkMandatoryPresent_ok_iff.mpr
      (firstMissingKey_setKey _ _ (checkMandatoryPresent_ok_iff.mp h1))
  · unfold checkSettings
    rw [lookup_setKey_self]
    simp [lookup_removeKey_self]

theorem remove_version_env_fails {d : Dict} {w : PyVal} {v : Dict}
    (h : validateSingleDict d = Except.ok w)
    (_hv : lookup d VERSION_KEY = some (PyVal.dict v)) :
    validateSingleDict (setKey d VERSION_KEY (PyVal.dict (removeKey v MODEL_ENV_KEY))) =
      Except.error (invalid (missingKeyMsg MODEL_ENV_KEY)) := by
  obtain ⟨h1, h2, _, _, _, _, _⟩ := validateSingleDict_ok_inv h
  apply validateSingleDict_err3
  · exact checkMandatoryPresent_ok_iff.mpr
      (firstMissingKey_setKey _ _ (checkMandatoryPresent_ok_iff.mp h1))
  · rw [checkSettings_congr
      (lookup_setKey_ne d VERSION_KEY SETTINGS_KEY _ (by decide))]
    exact h2
  · unfold checkVersion
    rw [lookup_setKey_self]
    simp [lookup_removeKey_self]

theorem checkConditional_setKey {d : Dict} {k : String} (v : PyVal)
    (hc : checkConditional d = Except.ok ()) (hk : k ∉ allowedKeys d) :
    checkConditional (setKey d k v) = Except.ok () := by
  obtain ⟨t, hT, hval, hbin, hmc⟩ := checkConditional_ok_inv hc
  have hTne : TARGET_TYPE_KEY ≠ k :=
    ne_k_of_mem_allowed (base_sub_allowed (by decide)) hk
  have hTl : lookup (setKey d k v) TARGET_TYPE_KEY = some (PyVal.str t) := by
    rw [lookup_setKey_ne d k TARGET_TYPE_KEY v hTne, hT]
  by_cases hb : isBinaryType t
  · obtain ⟨xp, hp⟩ := Option.isSome_iff_exists.mp (hbin hb).1
    obtain ⟨xn, hn⟩ := Option.isSome_iff_exists.mp (hbin hb).2
    have hpne : POSITIVE_CLASS_LABEL_KEY ≠ k :=
      ne_k_of_mem_allowed (cond_sub_allowed hT (pos_mem_cond hb)) hk
    have hnne : NEGATIVE_CLASS_LABEL_KEY ≠ k :=
      ne_k_of_mem_allowed (cond_sub_allowed hT (neg_mem_cond hb)) hk
    simp [checkConditional, hTl, hval, hb,
      lookup_setKey_ne d k POSITIVE_CLASS_LABEL_KEY v hpne,
      lookup_setKey_ne d k NEGATIVE_CLASS_LABEL_KEY v hnne, hp, hn]
  · by_cases hm : isMulticlassType t
    · obtain ⟨x, xs, hcl⟩ := hmc hm
      have hcne : CLASS_LABELS_KEY ≠ k := by
        refine ne_k_of_mem_allowed (cond_sub_allowed hT ?_) hk
        unfold condAllowed
        rw [if_neg hb, if_pos hm]
        decide
      simp [checkConditional, hTl, hval, hb, hm,
        lookup_setKey_ne d k CLASS_LABELS_KEY v hcne, hcl]
    · simp [checkConditional, hTl, hval, hb, hm]

theorem setKey_undeclared_fails {d : Dict} {w : PyVal} {k : String} (v : PyVal)
    (h : validateSingleDict d = Except.ok w) (hk : k ∉ allowedKeys d) :
    validateSingleDict (setKey d k v) = Except.error (invalid (wrongKeyMsg k)) := by
  obtain ⟨h1, h2, h3, h4, h5, _, _⟩ := validateSingleDict_ok_inv h
  have hTne : TARGET_TYPE_KEY ≠ k :=
    ne_k_of_mem_allowed (base_sub_allowed (by decide)) hk
  have hSne : SETTINGS_KEY ≠ k :=
    ne_k_of_mem_allowed (base_sub_allowed (by decide)) hk
  have hVne : VERSION_KEY ≠ k :=
    ne_k_of_mem_allowed (base_sub_allowed (by decide)) hk
  apply validateSingleDict_err5
  · exact checkMandatoryPresent_ok_iff.mpr
      (firstMissingKey_setKey _ _ (checkMandatoryPresent_ok_iff.mp h1))
  · rw [checkSettings_congr (lookup_setKey_ne d k SETTINGS_KEY v hSne)]
    exact h2
  · rw [checkVersion_congr (lookup_setKey_ne d k VERSION_KEY v hVne)]
    exact h3
  · exact checkConditional_setKey v h4 hk
  · unfold checkExtraKeys
    rw [allowedKeys_congr (lookup_setKey_ne d k TARGET_TYPE_KEY v hTne)]
    rw [firstBadKey_setKey_notmem v (checkExtraKeys_ok_iff.mp h5) hk]

end ModelSchema

namespace ModelSchema

theorem checkConditional_ok_at {d : Dict} {t : String}
    (h4 : checkConditional d = Except.ok ())
    (hT : lookup d TARGET_TYPE_KEY = some (PyVal.str t)) :
    isValidTargetType t ∧
    (isBinaryType t → (lookup d POSITIVE_CLASS_LABEL_KEY).isSome ∧
      (lookup d NEGATIVE_CLASS_LABEL_KEY).isSome) ∧
    (isMulticlassType t →
      ∃ x xs, lookup d CLASS_LABELS_KEY = some (PyVal.list (x :: xs))) := by
  obtain ⟨t2, hT2, hval, hbin, hmc⟩ := checkConditional_ok_inv h4
  have h0 := hT.symm.trans hT2
  injection h0 with h1
  injection h1 with h2
  subst h2
  exact ⟨hval, hbin, hmc⟩

theorem remove_pos_label_fails {d : Dict} {w : PyVal} {t : String}
    (h : validateSingleDict d = Except.ok w)
    (hT : lookup d TARGET_TYPE_KEY = some (PyVal.str t)) (hb : isBinaryType t) :
    validateSingleDict (removeKey d POSITIVE_CLASS_LABEL_KEY) =
      Except.error (invalid (missingKeyMsg POSITIVE_CLASS_LABEL_KEY)) := by
  obtain ⟨h1, h2, h3, h4, _, _, _⟩ := validateSingleDict_ok_inv h
  obtain ⟨hval, _, _⟩ := checkConditional_ok_at h4 hT
  apply validateSingleDict_err4
  · exact checkMandatoryPresent_ok_iff.mpr
      (firstMissingKey_removeKey_notin (checkMandatoryPresent_ok_iff.mp h1) (by decide))
  · rw [checkSettings_congr
      (lookup_removeKey_ne d POSITIVE_CLASS_LABEL_KEY SETTINGS_KEY (by decide))]
    exact h2
  · rw [checkVersion_congr
      (lookup_removeKey_ne d POSITIVE_CLASS_LABEL_KEY VERSION_KEY (by decide))]
    exact h3
  · simp [checkConditional,
      lookup_removeKey_ne d POSITIVE_CLASS_LABEL_KEY TARGET_TYPE_KEY (by decide),
      hT, hval, hb, lookup_removeKey_self]

theorem remove_neg_label_fails {d : Dict} {w : PyVal} {t : String}
    (h : validateSingleDict d = Except.ok w)
    (hT : lookup d TARGET_TYPE_KEY = some (PyVal.str t)) (hb : isBinaryType t) :
    validateSingleDict (removeKey d NEGATIVE_CLASS_LABEL_KEY) =
      Except.error (invalid (missingKeyMsg NEGATIVE_CLASS_LABEL_KEY)) := by
  obtain ⟨h1, h2, h3, h4, _, _, _⟩ := validateSingleDict_ok_inv h
  obtain ⟨hval, hbin, _⟩ := checkConditional_ok_at h4 hT
  obtain ⟨xp, hp⟩ := Option.isSome_iff_exists.mp (hbin hb).1
  apply validateSingleDict_err4
  · exact checkMandatoryPresent_ok_iff.mpr
      (firstMissingKey_removeKey_notin (checkMandatoryPresent_ok_iff.mp h1) (by decide))
  · rw [checkSettings_congr
      (lookup_removeKey_ne d NEGATIVE_CLASS_LABEL_KEY SETTINGS_KEY (by decide))]
    exact h2
  · rw [checkVersion_congr
      (lookup_removeKey_ne d NEGATIVE_CLASS_LABEL_KEY VERSION_KEY (by decide))]
    exact h3
  · simp [checkConditional,
      lookup_removeKey_ne d NEGATIVE_CLASS_LABEL_KEY TARGET_TYPE_KEY (by decide),
      lookup_removeKey_ne d NEGATIVE_CLASS_LABEL_KEY POSITIVE_CLASS_LABEL_KEY (by decide),
      hT, hval, hb, hp, lookup_removeKey_self]

theorem remove_both_labels_fails {d : Dict} {w : PyVal} {t : String}
    (h : validateSingleDict d = Except.ok w)
    (hT : lookup d TARGET_TYPE_KEY = some (PyVal.str t)) (hb : isBinaryType t) :
    validateSingleDict
        (removeKey (removeKey d POSITIVE_CLASS_LABEL_KEY) NEGATIVE_CLASS_LABEL_KEY) =
      Except.error (invalid (missingKeyMsg POSITIVE_CLASS_LABEL_KEY)) := by
  obtain ⟨h1, h2, h3, h4, _, _, _⟩ := validateSingleDict_ok_inv h
  obtain ⟨hval, _, _⟩ := checkConditional_ok_at h4 hT
  apply validateSingleDict_err4
  · exact checkMandatoryPresent_ok_iff.mpr
      (firstMissingKey_removeKey_notin
        (firstMissingKey_removeKey_notin (checkMandatoryPresent_ok_iff.mp h1)
          (by decide)) (by decide))
  · rw [checkSettings_congr
      (lookup_removeKey_ne _ NEGATIVE_CLASS_LABEL_KEY SETTINGS_KEY (by decide)),
      checkSettings_congr
      (lookup_removeKey_ne d POSITIVE_CLASS_LABEL_KEY SETTINGS_KEY (by decide))]
    exact h2
  · rw [checkVersion_congr
      (lookup_removeKey_ne _ NEGATIVE_CLASS_LABEL_KEY VERSION_KEY (by decide)),
      checkVersion_congr
      (lookup_removeKey_ne d POSITIVE_CLASS_LABEL_KEY VERSION_KEY (by decide))]
    exact h3
  · simp [checkConditional,
      lookup_removeKey_ne _ NEGATIVE_CLASS_LABEL_KEY TARGET_TYPE_KEY (by decide),
      lookup_removeKey_ne d POSITIVE_CLASS_LABEL_KEY TARGET_TYPE_KEY (by decide),
      lookup_removeKey_ne _ NEGATIVE_CLASS_LABEL_KEY POSITIVE_CLASS_LABEL_KEY (by decide),
      hT, hval, hb, lookup_removeKey_self]

theorem set_labels_ok {d : Dict} {w : PyVal} {t : String}
    (h : validateSingleDict d = Except.ok w)
    (hT : lookup d TARGET_TYPE_KEY = some (PyVal.str t)) (hb : isBinaryType t)
    (v1 v2 : PyVal) :
    validateSingleDict (setKey (setKey d POSITIVE_CLASS_LABEL_KEY v1)
        NEGATIVE_CLASS_LABEL_KEY v2) =
      Except.ok (PyVal.dict (normalizeSingleDict
        (setKey (setKey d POSITIVE_CLASS_LABEL_KEY v1) NEGATIVE_CLASS_LABEL_KEY v2))) := by
  obtain ⟨h1, h2, h3, h4, h5, h6, _⟩ := validateSingleDict_ok_inv h
  obtain ⟨hval, _, _⟩ := checkConditional_ok_at h4 hT
  have hT2 : lookup (setKey (setKey d POSITIVE_CLASS_LABEL_KEY v1)
      NEGATIVE_CLASS_LABEL_KEY v2) TARGET_TYPE_KEY = some (PyVal.str t) := by
    rw [lookup_setKey_ne _ NEGATIVE_CLASS_LABEL_KEY TARGET_TYPE_KEY v2 (by decide),
      lookup_setKey_ne d POSITIVE_CLASS_LABEL_KEY TARGET_TYPE_KEY v1 (by decide), hT]
  apply validateSingleDict_of_checks
  · exact checkMandatoryPresent_ok_iff.mpr
      (firstMissingKey_setKey _ _
        (firstMissingKey_setKey _ _ (checkMandatoryPresent_ok_iff.mp h1)))
  · rw [checkSettings_congr
      (lookup_setKey_ne _ NEGATIVE_CLASS_LABEL_KEY SETTINGS_KEY v2 (by decide)),
      checkSettings_congr
      (lookup_setKey_ne d POSITIVE_CLASS_LABEL_KEY SETTINGS_KEY v1 (by decide))]
    exact h2
  · rw [checkVersion_congr
      (lookup_setKey_ne _ NEGATIVE_CLASS_LABEL_KEY VERSION_KEY v2 (by decide)),
      checkVersion_congr
      (lookup_setKey_ne d POSITIVE_CLASS_LABEL_KEY VERSION_KEY v1 (by decide))]
    exact h3
  · simp [checkConditional, hT2, hval, hb, lookup_setKey_self,
      lookup_setKey_ne _ NEGATIVE_CLASS_LABEL_KEY POSITIVE_CLASS_LABEL_KEY v2 (by decide)]
  · unfold checkExtraKeys
    rw [allowedKeys_congr (hT2.trans hT.symm)]
    rw [firstBadKey_setKey_mem v2
      (firstBadKey_setKey_mem v1 (checkExtraKeys_ok_iff.mp h5)
        (cond_sub_allowed hT (pos_mem_cond hb)))
      (cond_sub_allowed hT (neg_mem_cond hb))]
  · rw [checkTest_congr
      (lookup_setKey_ne _ NEGATIVE_CLASS_LABEL_KEY TEST_KEY v2 (by decide)),
      checkTest_congr
      (lookup_setKey_ne d POSITIVE_CLASS_LABEL_KEY TEST_KEY v1 (by decide))]
    exact h6

end ModelSchema

namespace ModelSchema

/-- The test sub-document of the unit test with an inconsistent stability
check: minimum payload size 100, maximum payload size 50. -/
def badStabilityTest : PyVal :=
  PyVal.dict [(TEST_DATA_KEY, PyVal.str "62779bef562155562769f932"),
    (CHECKS_KEY, PyVal.dict [(STABILITY_KEY, PyVal.dict
      [(CHECK_ENABLED_KEY, PyVal.bool true),
       (BLOCK_DEPLOYMENT_IF_FAILS_KEY, PyVal.bool true),
       (MINIMUM_PAYLOAD_SIZE_KEY, PyVal.int 100),
       (MAXIMUM_PAYLOAD_SIZE_KEY, PyVal.int 50)])])]

/-- The same test sub-document with consistent payload bounds: minimum 50,
maximum 100. -/
def goodStabilityTest : PyVal :=
  PyVal.dict [(TEST_DATA_KEY, PyVal.str "62779bef562155562769f932"),
    (CHECKS_KEY, PyVal.dict [(STABILITY_KEY, PyVal.dict
      [(CHECK_ENABLED_KEY, PyVal.bool true),
       (BLOCK_DEPLOYMENT_IF_FAILS_KEY, PyVal.bool true),
       (MINIMUM_PAYLOAD_SIZE_KEY, PyVal.int 50),
       (MAXIMUM_PAYLOAD_SIZE_KEY, PyVal.int 100)])])]

theorem checkTest_setKey (d : Dict) (tv : PyVal) :
    checkTest (setKey d TEST_KEY tv) = checkTest [(TEST_KEY, tv)] := by
  unfold checkTest
  rw [lookup_setKey_self]
  simp [lookup]

theorem setKey_test_checks_ok {d : Dict} {w : PyVal} (tv : PyVal)
    (h : validateSingleDict d = Except.ok w) :
    checkMandatoryPresent (setKey d TEST_KEY tv) = Except.ok () ∧
    checkSettings (setKey d TEST_KEY tv) = Except.ok () ∧
    checkVersion (setKey d TEST_KEY tv) = Except.ok () ∧
    checkConditional (setKey d TEST_KEY tv) = Except.ok () ∧
    checkExtraKeys (setKey d TEST_KEY tv) = Except.ok () := by
  obtain ⟨h1, h2, h3, h4, h5, _, _⟩ := validateSingleDict_ok_inv h
  have hTT : lookup (setKey d TEST_KEY tv) TARGET_TYPE_KEY =
      lookup d TARGET_TYPE_KEY :=
    lookup_setKey_ne d TEST_KEY TARGET_TYPE_KEY tv (by decide)
  refine ⟨?_, ?_, ?_, ?_, ?_⟩
  · exact checkMandatoryPresent_ok_iff.mpr
      (firstMissingKey_setKey _ _ (checkMandatoryPresent_ok_iff.mp h1))
  · rw [checkSettings_congr (lookup_setKey_ne d TEST_KEY SETTINGS_KEY tv (by decide))]
    exact h2
  · rw [checkVersion_congr (lookup_setKey_ne d TEST_KEY VERSION_KEY tv (by decide))]
    exact h3
  · rw [checkConditional_congr hTT
      (lookup_setKey_ne d TEST_KEY POSITIVE_CLASS_LABEL_KEY tv (by decide))
      (lookup_setKey_ne d TEST_KEY NEGATIVE_CLASS_LABEL_KEY tv (by decide))
      (lookup_setKey_ne d TEST_KEY CLASS_LABELS_KEY tv (by decide))]
    exact h4
  · unfold checkExtraKeys
    rw [allowedKeys_congr hTT]
    rw [firstBadKey_setKey_mem tv (checkExtraKeys_ok_iff.mp h5)
      (base_sub_allowed (by decide))]

theorem stability_bad_fails {d : Dict} {w : PyVal}
    (h : validateSingleDict d = Except.ok w) :
    validateSingleDict (setKey d TEST_KEY badStabilityTest) =
      Except.error (invalid (stabilityMsg 100 50)) := by
  obtain ⟨c1, c2, c3, c4, c5⟩ := setKey_test_checks_ok badStabilityTest h
  apply validateSingleDict_err6 c1 c2 c3 c4 c5
  rw [checkTest_setKey]
  rfl

theorem stability_good_ok {d : Dict} {w : PyVal}
    (h : validateSingleDict d = Except.ok w) :
    ∃ w2, validateSingleDict (setKey d TEST_KEY goodStabilityTest) =
      Except.ok w2 := by
  obtain ⟨c1, c2, c3, c4, c5⟩ := setKey_test_checks_ok goodStabilityTest h
  refine ⟨_, validateSingleDict_of_checks c1 c2 c3 c4 c5 ?_⟩
  rw [checkTest_setKey]
  rfl

/-! ## Multi-model plumbing -/

/-- A multi-model entry as the tests build it: a relative path and a
metadata sub-document. -/
def entryVal (p : String) (m : PyVal) : PyVal :=
  PyVal.dict [( MODEL_ENTRY_PATH_KEY, PyVal.str p), (MODEL_ENTRY_META_KEY, m)]

/-- A multi-model document holding the given entry list. -/
def multiDoc (es : List PyVal) : PyVal :=
  PyVal.dict [( MULTI_MODELS_KEY, PyVal.list es)]

theorem validateEntry_entryVal (p : String) (m : PyVal) :
    validateEntry (entryVal p m) =
      match validate_and_transform_single m with
      | Except.error e => Except.error e
      | Except.ok mm => Except.ok (entryVal p mm) := rfl

theorem validateEntry_entryVal_ok {p : String} {m mm : PyVal}
    (h : validate_and_transform_single m = Except.ok mm) :
    validateEntry (entryVal p m) = Except.ok (entryVal p mm) := by
  rw [validateEntry_entryVal, h]

theorem validateEntry_entryVal_err {p : String} {m : PyVal} {e : GenericException}
    (h : validate_and_transform_single m = Except.error e) :
    validateEntry (entryVal p m) = Except.error e := by
  rw [validateEntry_entryVal, h]

theorem validate_multiDoc (es : List PyVal) :
    validate_and_transform_multi (multiDoc es) =
      match validateEntries es with
      | Except.error e => Except.error e
      | Except.ok es2 => Except.ok (multiDoc es2) := rfl

theorem validateEntries_append_ok {a b : List PyVal} {res : List PyVal}
    (h : validateEntries (a ++ b) = Except.ok res) :
    ∃ ra rb, validateEntries a = Except.ok ra ∧ validateEntries b = Except.ok rb := by
  induction a generalizing res with
  | nil => exact ⟨[], res, rfl, h⟩
  | cons e a2 ih =>
    rw [List.cons_append] at h
    unfold validateEntries at h
    split at h
    · simp at h
    · rename_i e2 he2
      split at h
      · simp at h
      · rename_i r2 hr2
        obtain ⟨ra, rb, ha, hb⟩ := ih hr2
        refine ⟨e2 :: ra, rb, ?_, hb⟩
        unfold validateEntries
        rw [he2, ha]

theorem validateEntries_mid_err {a : List PyVal} {x : PyVal} {b : List PyVal}
    {ra : List PyVal} {e : GenericException}
    (ha : validateEntries a = Except.ok ra) (hx : validateEntry x = Except.error e) :
    validateEntries (a ++ x :: b) = Except.error e := by
  induction a generalizing ra with
  | nil =>
    rw [List.nil_append]
    unfold validateEntries
    rw [hx]
  | cons e0 a2 ih =>
    unfold validateEntries at ha
    split at ha
    · simp at ha
    · rename_i e2 he2
      split at ha
      · simp at ha
      · rename_i r2 hr2
        rw [List.cons_append]
        unfold validateEntries
        rw [he2, ih hr2]

theorem multi_ok_inv {l1 : List PyVal} {p : String} {d : Dict} {l2 : List PyVal}
    {w : PyVal}
    (h : validate_and_transform_multi
      (multiDoc (l1 ++ entryVal p (PyVal.dict d) :: l2)) = Except.ok w) :
    ∃ w1 wd, validateEntries l1 = Except.ok w1 ∧ validateSingleDict d = Except.ok wd := by
  rw [validate_multiDoc] at h
  split at h
  · simp at h
  · rename_i es2 hes
    obtain ⟨ra, rb, ha, hb⟩ := validateEntries_append_ok hes
    unfold validateEntries at hb
    split at hb
    · simp at hb
    · rename_i e2 he2
      rw [validateEntry_entryVal] at he2
      split at he2
      · simp at he2
      · rename_i mm hmm
        exact ⟨ra, mm, ha, hmm⟩

theorem multi_err {l1 : List PyVal} {p : String} {d2 : Dict} {l2 : List PyVal}
    {w1 : List PyVal} {e : GenericException}
    (ha : validateEntries l1 = Except.ok w1)
    (hd : validateSingleDict d2 = Except.error e) :
    validate_and_transform_multi
      (multiDoc (l1 ++ entryVal p (PyVal.dict d2) :: l2)) = Except.error e := by
  rw [validate_multiDoc]
  rw [validateEntries_mid_err ha (validateEntry_entryVal_err ((vats_single_dict d2).trans hd))]

end ModelSchema

namespace ModelSchema

/-- The conclusion of claim C2: the document is a mapping, validation
succeeded, and the returned copy's version sub-document carries both glob
keys as lists, empty when they were absent in the input. -/
def NormalizedGlobFacts (doc r : PyVal) : Prop :=
  ∃ dd vd0 rd vd, doc = PyVal.dict dd ∧ r = PyVal.dict rd ∧
    lookup dd VERSION_KEY = some (PyVal.dict vd0) ∧
    lookup rd VERSION_KEY = some (PyVal.dict vd) ∧
    (∃ xs, lookup vd INCLUDE_GLOB_KEY = some (PyVal.list xs) ∧
      (lookup vd0 INCLUDE_GLOB_KEY = Option.none → xs = [])) ∧
    (∃ ys, lookup vd EXCLUDE_GLOB_KEY = some (PyVal.list ys) ∧
      (lookup vd0 EXCLUDE_GLOB_KEY = Option.none → ys = []))

/-- The conclusion of claim C3 for a single-model document: removing any of
the mandatory keys (or the nested settings name / version model-environment
keys) makes validation fail naming exactly the innermost missing key. -/
def MissingKeyFailures (d : Dict) : Prop :=
  FailsWith (validate_and_transform_single (PyVal.dict (removeKey d MODEL_ID_KEY)))
    (missingKeyMsg MODEL_ID_KEY) ∧
  FailsWith (validate_and_transform_single (PyVal.dict (removeKey d TARGET_TYPE_KEY)))
    (missingKeyMsg TARGET_TYPE_KEY) ∧
  FailsWith (validate_and_transform_single (PyVal.dict (removeKey d TARGET_NAME_KEY)))
    (missingKeyMsg TARGET_NAME_KEY) ∧
  FailsWith (validate_and_transform_single (PyVal.dict (removeKey d VERSION_KEY)))
    (missingKeyMsg VERSION_KEY) ∧
  FailsWith (validate_and_transform_single (PyVal.dict (removeKey d SETTINGS_KEY)))
    (missingKeyMsg SETTINGS_KEY) ∧
  (∀ s, lookup d SETTINGS_KEY = some (PyVal.dict s) →
    FailsWith (validate_and_transform_single (PyVal.dict
      (setKey d SETTINGS_KEY (PyVal.dict (removeKey s NAME_KEY)))))
      (missingKeyMsg NAME_KEY)) ∧
  (∀ v, lookup d VERSION_KEY = some (PyVal.dict v) →
    FailsWith (validate_and_transform_single (PyVal.dict
      (setKey d VERSION_KEY (PyVal.dict (removeKey v MODEL_ENV_KEY)))))
      (missingKeyMsg MODEL_ENV_KEY))

/-- The conclusion of claim C3 for a multi-model document built from valid
surrounding entries `l1`, `l2` and one entry with path `p` and metadata
`d`: the same removals inside that entry's metadata fail with the same
messages. -/
def MultiMissingKeyFailures (l1 : List PyVal) (p : String) (d : Dict)
    (l2 : List PyVal) : Prop :=
  FailsWith (validate_and_transform_multi (multiDoc
      (l1 ++ entryVal p (PyVal.dict (removeKey d MODEL_ID_KEY)) :: l2)))
    (missingKeyMsg MODEL_ID_KEY) ∧
  FailsWith (validate_and_transform_multi (multiDoc
      (l1 ++ entryVal p (PyVal.dict (removeKey d TARGET_TYPE_KEY)) :: l2)))
    (missingKeyMsg TARGET_TYPE_KEY) ∧
  FailsWith (validate_and_transform_multi (multiDoc
      (l1 ++ entryVal p (PyVal.dict (removeKey d TARGET_NAME_KEY)) :: l2)))
    (missingKeyMsg TARGET_NAME_KEY) ∧
  FailsWith (validate_and_transform_multi (multiDoc
      (l1 ++ entryVal p (PyVal.dict (removeKey d VERSION_KEY)) :: l2)))
    (missingKeyMsg VERSION_KEY) ∧
  FailsWith (validate_and_transform_multi (multiDoc
      (l1 ++ entryVal p (PyVal.dict (removeKey d SETTINGS_KEY)) :: l2)))
    (missingKeyMsg SETTINGS_KEY) ∧
  (∀ s, lookup d SETTINGS_KEY = some (PyVal.dict s) →
    FailsWith (validate_and_transform_multi (multiDoc (l1 ++ entryVal p
        (PyVal.dict (setKey d SETTINGS_KEY (PyVal.dict (removeKey s NAME_KEY)))) :: l2)))
      (missingKeyMsg NAME_KEY)) ∧
  (∀ v, lookup d VERSION_KEY = some (PyVal.dict v) →
    FailsWith (validate_and_transform_multi (multiDoc (l1 ++ entryVal p
        (PyVal.dict (setKey d VERSION_KEY (PyVal.dict (removeKey v MODEL_ENV_KEY)))) :: l2)))
      (missingKeyMsg MODEL_ENV_KEY))

/-- The conclusion of claim C5: for a valid binary-typed document both
class labels are present, any values for both labels keep validation
succeeding, and removing either label or both makes validation fail. -/
def BinaryLabelFacts (d : Dict) : Prop :=
  (lookup d POSITIVE_CLASS_LABEL_KEY).isSome ∧
  (lookup d NEGATIVE_CLASS_LABEL_KEY).isSome ∧
  (∀ v1 v2, ∃ w2, validate_and_transform_single (PyVal.dict
    (setKey (setKey d POSITIVE_CLASS_LABEL_KEY v1) NEGATIVE_CLASS_LABEL_KEY v2)) =
    Except.ok w2) ∧
  FailsWith (validate_and_transform_single (PyVal.dict
      (removeKey d POSITIVE_CLASS_LABEL_KEY)))
    (missingKeyMsg POSITIVE_CLASS_LABEL_KEY) ∧
  FailsWith (validate_and_transform_single (PyVal.dict
      (removeKey d NEGATIVE_CLASS_LABEL_KEY)))
    (missingKeyMsg NEGATIVE_CLASS_LABEL_KEY) ∧
  FailsWith (validate_and_transform_single (PyVal.dict
      (removeKey (removeKey d POSITIVE_CLASS_LABEL_KEY) NEGATIVE_CLASS_LABEL_KEY)))
    (missingKeyMsg POSITIVE_CLASS_LABEL_KEY)

/-- The conclusion of claim C6: supplying a conditional key of one target
type while the document's discriminator is of another variant makes
validation fail with the wrong-key message. -/
def ExclusiveKeyFacts (d : Dict) (t : String) : Prop :=
  (¬ isRegressionType t → ∀ v, FailsWith (validate_and_transform_single
      (PyVal.dict (setKey d PREDICTION_THRESHOLD_KEY v)))
    (wrongKeyMsg PREDICTION_THRESHOLD_KEY)) ∧
  (¬ isMulticlassType t → ∀ v, FailsWith (validate_and_transform_single
      (PyVal.dict (setKey d CLASS_LABELS_KEY v)))
    (wrongKeyMsg CLASS_LABELS_KEY)) ∧
  (¬ isBinaryType t → ∀ v, FailsWith (validate_and_transform_single
      (PyVal.dict (setKey d POSITIVE_CLASS_LABEL_KEY v)))
    (wrongKeyMsg POSITIVE_CLASS_LABEL_KEY)) ∧
  (¬ isBinaryType t → ∀ v, FailsWith (validate_and_transform_single
      (PyVal.dict (setKey d NEGATIVE_CLASS_LABEL_KEY v)))
    (wrongKeyMsg NEGATIVE_CLASS_LABEL_KEY))

/-- The conclusion of claim C7: attaching the inconsistent stability test
sub-document (minimum 100, maximum 50) fails with exactly the cross-field
message, and attaching the consistent one (minimum 50, maximum 100)
succeeds. -/
def StabilityBoundsFacts (d : Dict) : Prop :=
  (∃ e, validate_and_transform_single (PyVal.dict (setKey d TEST_KEY badStabilityTest)) =
      Except.error e ∧
    e.msg = "Stability test check minimum payload size (100) is higher than the maximum (50)") ∧
  (∃ w2, validate_and_transform_single (PyVal.dict (setKey d TEST_KEY goodStabilityTest)) =
    Except.ok w2)

theorem thresh_notin_cond {t : String} (hr : ¬ isRegressionType t) :
    PREDICTION_THRESHOLD_KEY ∉ condAllowed t := by
  unfold condAllowed
  by_cases hb : isBinaryType t
  · rw [if_pos hb]; decide
  · rw [if_neg hb]
    by_cases hm : isMulticlassType t
    · rw [if_pos hm]; decide
    · rw [if_neg hm, if_neg hr]; decide

theorem labels_notin_cond {t : String} (hm : ¬ isMulticlassType t) :
    CLASS_LABELS_KEY ∉ condAllowed t := by
  unfold condAllowed
  by_cases hb : isBinaryType t
  · rw [if_pos hb]; decide
  · rw [if_neg hb, if_neg hm]
    by_cases hr : isRegressionType t
    · rw [if_pos hr]; decide
    · rw [if_neg hr]; decide

theorem pos_notin_cond {t : String} (hb : ¬ isBinaryType t) :
    POSITIVE_CLASS_LABEL_KEY ∉ condAllowed t := by
  unfold condAllowed
  rw [if_neg hb]
  by_cases hm : isMulticlassType t
  · rw [if_pos hm]; decide
  · rw [if_neg hm]
    by_cases hr : isRegressionType t
    · rw [if_pos hr]; decide
    · rw [if_neg hr]; decide

theorem neg_notin_cond {t : String} (hb : ¬ isBinaryType t) :
    NEGATIVE_CLASS_LABEL_KEY ∉ condAllowed t := by
  unfold condAllowed
  rw [if_neg hb]
  by_cases hm : isMulticlassType t
  · rw [if_pos hm]; decide
  · rw [if_neg hm]
    by_cases hr : isRegressionType t
    · rw [if_pos hr]; decide
    · rw [if_neg hr]; decide

theorem notin_allowed_of {d : Dict} {t k : String}
    (hT : lookup d TARGET_TYPE_KEY = some (PyVal.str t))
    (hbase : k ∉ baseAllowed) (hcond : k ∉ condAllowed t) :
    k ∉ allowedKeys d := by
  rw [allowedKeys_eq hT]
  intro hm
  cases List.mem_append.mp hm with
  | inl h0 => exact hbase h0
  | inr h0 => exact hcond h0

end ModelSchema

namespace ModelSchema

/-- The regression single-model fixture of the unit tests
(`regression_model_schema`). -/
def regressionModelSchema : Dict :=
  [( MODEL_ID_KEY, PyVal.str "abc123"),
   (TARGET_TYPE_KEY, PyVal.str "Regression"),
   (TARGET_NAME_KEY, PyVal.str "target_column"),
   (SETTINGS_KEY, PyVal.dict [(NAME_KEY, PyVal.str "My Awesome Model")]),
   (VERSION_KEY, PyVal.dict [( MODEL_ENV_KEY, PyVal.str "627785ea562155d227c6a56c")])]

/-- A binary single-model document: the regression fixture with a binary
target type and both class labels, as the tests build it. -/
def binaryModelSchema : Dict :=
  [( MODEL_ID_KEY, PyVal.str "abc123"),
   (TARGET_TYPE_KEY, PyVal.str "Binary"),
   (TARGET_NAME_KEY, PyVal.str "target_column"),
   (SETTINGS_KEY, PyVal.dict [(NAME_KEY, PyVal.str "My Awesome Model")]),
   (VERSION_KEY, PyVal.dict [( MODEL_ENV_KEY, PyVal.str "627785ea562155d227c6a56c")]),
   (POSITIVE_CLASS_LABEL_KEY, PyVal.str "1"),
   (NEGATIVE_CLASS_LABEL_KEY, PyVal.str "0")]

end ModelSchema

open ModelSchema in
/-- C2: for every document on which `validate_and_transform_single`
succeeds, the returned normalized document's version sub-document carries
both the include-glob and the exclude-glob keys with list values, and each
defaults to the empty list when absent in the input document. -/
theorem validate_single_normalizes_globs (doc r : PyVal)
    (h : validate_and_transform_single doc = Except.ok r) :
    NormalizedGlobFacts doc r := by
  cases doc with
  | dict dd =>
    rw [vats_single_dict] at h
    obtain ⟨h1, _, h3, _, _, _, hw⟩ := validateSingleDict_ok_inv h
    have hvsome : (lookup dd VERSION_KEY).isSome :=
      firstMissingKey_none_isSome (checkMandatoryPresent_ok_iff.mp h1)
        VERSION_KEY (by decide)
    obtain ⟨vd0, hv, _, hg1, hg2⟩ := checkVersion_ok_inv hvsome h3
    refine ⟨dd, vd0, normalizeSingleDict dd,
      ensureGlob (ensureGlob vd0 INCLUDE_GLOB_KEY) EXCLUDE_GLOB_KEY,
      rfl, hw, hv, ?_, ?_, ?_⟩
    · rw [lookup_normalize_version, hv]
      rfl
    · cases h0 : lookup vd0 INCLUDE_GLOB_KEY with
      | none =>
        refine ⟨[], ?_, fun _ => rfl⟩
        rw [ensureGlob_lookup_ne (by decide), ensureGlob_lookup_of_none h0]
      | some x =>
        obtain ⟨xs, hxs⟩ := hg1 x h0
        subst hxs
        refine ⟨xs, ?_, ?_⟩
        · rw [ensureGlob_lookup_ne (by decide), ensureGlob_lookup_of_some h0]
        · intro hc
          simp at hc
    · have hstep : lookup (ensureGlob vd0 INCLUDE_GLOB_KEY) EXCLUDE_GLOB_KEY =
          lookup vd0 EXCLUDE_GLOB_KEY := ensureGlob_lookup_ne (by decide)
      cases h0 : lookup vd0 EXCLUDE_GLOB_KEY with
      | none =>
        refine ⟨[], ?_, fun _ => rfl⟩
        rw [ensureGlob_lookup_of_none (hstep.trans h0)]
      | some x =>
        obtain ⟨ys, hys⟩ := hg2 x h0
        subst hys
        refine ⟨ys, ?_, ?_⟩
        · rw [ensureGlob_lookup_of_some (hstep.trans h0)]
        · intro hc
          simp at hc
  | none => simp [validate_and_transform_single] at h
  | bool b => simp [validate_and_transform_single] at h
  | int n => simp [validate_and_transform_single] at h
  | str s => simp [validate_and_transform_single] at h
  | list xs => simp [validate_and_transform_single] at h

open ModelSchema in
/-- Witness for C2 at the regression fixture. -/
theorem validate_single_normalizes_globs_witness :
    NormalizedGlobFacts (PyVal.dict regressionModelSchema)
      (PyVal.dict (normalizeSingleDict regressionModelSchema)) :=
  validate_single_normalizes_globs (PyVal.dict regressionModelSchema)
    (PyVal.dict (normalizeSingleDict regressionModelSchema)) rfl

open ModelSchema in
/-- C3: removing any single mandatory key (model id, target type, target
name, version, settings) or nested mandatory sub-key (settings name,
version model-environment) from an otherwise-valid single-model or
multi-model document makes validation fail with a message containing
`Missing key: '<key>'` naming the innermost missing key. -/
theorem missing_mandatory_key_fails :
    (∀ d w, validate_and_transform_single (PyVal.dict d) = Except.ok w →
      MissingKeyFailures d) ∧
    (∀ l1 p d l2 w, validate_and_transform_multi
        (multiDoc (l1 ++ entryVal p (PyVal.dict d) :: l2)) = Except.ok w →
      MultiMissingKeyFailures l1 p d l2) := by
  constructor
  · intro d w h
    rw [vats_single_dict] at h
    refine ⟨?_, ?_, ?_, ?_, ?_, ?_, ?_⟩
    · exact failsWith_of_error
        ((vats_single_dict _).trans (remove_mandatory_fails h (by decide))) rfl
    · exact failsWith_of_error
        ((vats_single_dict _).trans (remove_mandatory_fails h (by decide))) rfl
    · exact failsWith_of_error
        ((vats_single_dict _).trans (remove_mandatory_fails h (by decide))) rfl
    · exact failsWith_of_error
        ((vats_single_dict _).trans (remove_mandatory_fails h (by decide))) rfl
    · exact failsWith_of_error
        ((vats_single_dict _).trans (remove_mandatory_fails h (by decide))) rfl
    · intro s hs
      exact failsWith_of_error
        ((vats_single_dict _).trans (remove_settings_name_fails h hs)) rfl
    · intro v hv
      exact failsWith_of_error
        ((vats_single_dict _).trans (remove_version_env_fails h hv)) rfl
  · intro l1 p d l2 w h
    obtain ⟨w1, wd, ha, hd⟩ := multi_ok_inv h
    refine ⟨?_, ?_, ?_, ?_, ?_, ?_, ?_⟩
    · exact failsWith_of_error
        (multi_err ha (remove_mandatory_fails hd (by decide))) rfl
    · exact failsWith_of_error
        (multi_err ha (remove_mandatory_fails hd (by decide))) rfl
    · exact failsWith_of_error
        (multi_err ha (remove_mandatory_fails hd (by decide))) rfl
    · exact failsWith_of_error
        (multi_err ha (remove_mandatory_fails hd (by decide))) rfl
    · exact failsWith_of_error
        (multi_err ha (remove_mandatory_fails hd (by decide))) rfl
    · intro s hs
      exact failsWith_of_error
        (multi_err ha (remove_settings_name_fails hd hs)) rfl
    · intro v hv
      exact failsWith_of_error
        (multi_err ha (remove_version_env_fails hd hv)) rfl

open ModelSchema in
/-- Witness for C3 at the regression fixture. -/
theorem missing_mandatory_key_fails_witness :
    MissingKeyFailures regressionModelSchema :=
  missing_mandatory_key_fails.1 regressionModelSchema
    (PyVal.dict (normalizeSingleDict regressionModelSchema)) rfl

open ModelSchema in
/-- C4: adding any key that is not in the declared key set of an
otherwise-valid single-model or multi-model document makes validation fail
with a message containing `Wrong key '<key>'`. -/
theorem undeclared_key_fails :
    (∀ d w k v, validate_and_transform_single (PyVal.dict d) = Except.ok w →
      k ∉ allowedKeys d →
      FailsWith (validate_and_transform_single (PyVal.dict (setKey d k v)))
        (wrongKeyMsg k)) ∧
    (∀ l1 p d l2 w k v, validate_and_transform_multi
        (multiDoc (l1 ++ entryVal p (PyVal.dict d) :: l2)) = Except.ok w →
      k ∉ allowedKeys d →
      FailsWith (validate_and_transform_multi
          (multiDoc (l1 ++ entryVal p (PyVal.dict (setKey d k v)) :: l2)))
        (wrongKeyMsg k)) := by
  constructor
  · intro d w k v h hk
    rw [vats_single_dict] at h
    exact failsWith_of_error
      ((vats_single_dict _).trans (setKey_undeclared_fails v h hk)) rfl
  · intro l1 p d l2 w k v h hk
    obtain ⟨w1, wd, ha, hd⟩ := multi_ok_inv h
    exact failsWith_of_error (multi_err ha (setKey_undeclared_fails v hd hk)) rfl

open ModelSchema in
/-- Witness for C4: the test's `forbidden_key` on the regression fixture. -/
theorem undeclared_key_fails_witness :
    FailsWith (validate_and_transform_single (PyVal.dict
        (setKey regressionModelSchema "forbidden_key"
          (PyVal.str "Non allowed extra key"))))
      (wrongKeyMsg "forbidden_key") :=
  undeclared_key_fails.1 regressionModelSchema
    (PyVal.dict (normalizeSingleDict regressionModelSchema)) "forbidden_key"
    (PyVal.str "Non allowed extra key") rfl (by decide)

open ModelSchema in
/-- C5: for a binary target type, the two class-label keys are jointly
mandatory: a valid binary document carries both, both may carry any values,
and removing either label or both makes validation fail. -/
theorem binary_labels_jointly_mandatory (d : Dict) (w : PyVal) (t : String)
    (h : validate_and_transform_single (PyVal.dict d) = Except.ok w)
    (hT : lookup d TARGET_TYPE_KEY = some (PyVal.str t)) (hb : isBinaryType t) :
    BinaryLabelFacts d := by
  rw [vats_single_dict] at h
  obtain ⟨_, _, _, h4, _, _, _⟩ := validateSingleDict_ok_inv h
  obtain ⟨hval, hbin, _⟩ := checkConditional_ok_at h4 hT
  refine ⟨(hbin hb).1, (hbin hb).2, ?_, ?_, ?_, ?_⟩
  · intro v1 v2
    exact ⟨_, (vats_single_dict _).trans (set_labels_ok h hT hb v1 v2)⟩
  · exact failsWith_of_error
      ((vats_single_dict _).trans (remove_pos_label_fails h hT hb)) rfl
  · exact failsWith_of_error
      ((vats_single_dict _).trans (remove_neg_label_fails h hT hb)) rfl
  · exact failsWith_of_error
      ((vats_single_dict _).trans (remove_both_labels_fails h hT hb)) rfl

open ModelSchema in
/-- Witness for C5 at a concrete binary document. -/
theorem binary_labels_jointly_mandatory_witness :
    BinaryLabelFacts binaryModelSchema :=
  binary_labels_jointly_mandatory binaryModelSchema
    (PyVal.dict (normalizeSingleDict binaryModelSchema)) "Binary" rfl rfl
    (Or.inl rfl)

open ModelSchema in
/-- C6: conditional keys are mutually exclusive with foreign target types:
a prediction threshold with a non-regression type, a class-labels list with
a non-multiclass type, or a class label with a non-binary type each make an
otherwise-valid document fail validation. -/
theorem mutually_exclusive_keys_fail (d : Dict) (w : PyVal) (t : String)
    (h : validate_and_transform_single (PyVal.dict d) = Except.ok w)
    (hT : lookup d TARGET_TYPE_KEY = some (PyVal.str t)) :
    ExclusiveKeyFacts d t := by
  rw [vats_single_dict] at h
  refine ⟨?_, ?_, ?_, ?_⟩
  · intro hr v
    exact failsWith_of_error ((vats_single_dict _).trans
      (setKey_undeclared_fails v h
        (notin_allowed_of hT (by decide) (thresh_notin_cond hr)))) rfl
  · intro hm v
    exact failsWith_of_error ((vats_single_dict _).trans
      (setKey_undeclared_fails v h
        (notin_allowed_of hT (by decide) (labels_notin_cond hm)))) rfl
  · intro hb v
    exact failsWith_of_error ((vats_single_dict _).trans
      (setKey_undeclared_fails v h
        (notin_allowed_of hT (by decide) (pos_notin_cond hb)))) rfl
  · intro hb v
    exact failsWith_of_error ((vats_single_dict _).trans
      (setKey_undeclared_fails v h
        (notin_allowed_of hT (by decide) (neg_notin_cond hb)))) rfl

open ModelSchema in
/-- Witness for C6 at the regression fixture. -/
theorem mutually_exclusive_keys_fail_witness :
    ExclusiveKeyFacts regressionModelSchema "Regression" :=
  mutually_exclusive_keys_fail regressionModelSchema
    (PyVal.dict (normalizeSingleDict regressionModelSchema)) "Regression" rfl rfl

open ModelSchema in
/-- C7: on an otherwise-valid document, a stability check with minimum
payload size 100 and maximum 50 fails with exactly the cross-field message
embedding both values, while minimum 50 and maximum 100 validates. -/
theorem stability_bounds_checked (d : Dict) (w : PyVal)
    (h : validate_and_transform_single (PyVal.dict d) = Except.ok w) :
    StabilityBoundsFacts d := by
  rw [vats_single_dict] at h
  constructor
  · exact ⟨invalid (stabilityMsg 100 50),
      (vats_single_dict _).trans (stability_bad_fails h), rfl⟩
  · obtain ⟨w2, hw2⟩ := stability_good_ok h
    exact ⟨w2, (vats_single_dict _).trans hw2⟩

open ModelSchema in
/-- Witness for C7 at the regression fixture. -/
theorem stability_bounds_checked_witness :
    StabilityBoundsFacts regressionModelSchema :=
  stability_bounds_checked regressionModelSchema
    (PyVal.dict (normalizeSingleDict regressionModelSchema)) rfl
